import Mathlib

/-!
# Announcement channel of the accessibility subsystem

Shallow embedding of `src/contexts/AnnouncementContext.jsx`
(`AnnouncementProvider`): the React state `announcements` (the active set), the refs
`announcementQueue` and `isProcessing`, and the timers started with `setTimeout`.

Modelling conventions.
* A JavaScript object is a record whose optional properties are `Option` fields;
  `none` is an absent property, which reads as `undefined`.
* `Date.now()` and `Date.now() + Math.random()` are inputs supplied by the environment
  (`Env`); the sum is kept as an abstract number.
* `setTimeout(f, d)` appends a `Timer` with delay `d` to the list of pending timers; an
  event `fire k` runs the `k`-th pending timer.  Every order of firing is allowed, which
  includes the orders a real clock produces.
* `setAnnouncements(updater)` is applied at once: React applies functional updaters in
  the order they were queued, so the resulting list is the same.
-/

namespace AnnouncementContext

/-! ## JavaScript values and strings -/

/-- The JavaScript values that can be handed to `announce` as `message` or `priority`. -/
inductive JSValue where
  | undefined
  | null
  | bool (b : Bool)
  | num (n : Int)
  | str (s : String)
  | obj
  deriving DecidableEq, Repr

/-- JavaScript truthiness (`!!v`). -/
def JSValue.truthy : JSValue → Bool
  | .undefined => false
  | .null => false
  | .bool b => b
  | .num n => n != 0
  | .str s => s != ""
  | .obj => true

/-- The `typeof` operator. -/
def JSValue.typeof : JSValue → String
  | .undefined => "undefined"
  | .null => "object"
  | .bool _ => "boolean"
  | .num _ => "number"
  | .str _ => "string"
  | .obj => "object"

/-- Characters removed by `String.prototype.trim`: ECMAScript WhiteSpace and
LineTerminator code points. -/
def isJsWhiteSpace (c : Char) : Bool :=
  c.val = 0x09 || c.val = 0x0A || c.val = 0x0B || c.val = 0x0C || c.val = 0x0D ||
  c.val = 0x20 || c.val = 0xA0 || c.val = 0x1680 ||
  (0x2000 ≤ c.val && c.val ≤ 0x200A) ||
  c.val = 0x2028 || c.val = 0x2029 || c.val = 0x202F || c.val = 0x205F ||
  c.val = 0x3000 || c.val = 0xFEFF

/-- The method `String.prototype.trim`: white space is dropped at both ends. -/
def jsTrim (s : String) : String :=
  String.mk ((s.data.dropWhile isJsWhiteSpace).rdropWhile isJsWhiteSpace)

/-! ## Data model -/

/-- The `options` argument of `announce`; `none` is a property that was not given. -/
structure Options where
  category : Option String
  timeout : Option Nat
  skipQueue : Option Bool
  deriving DecidableEq, Repr

/-- The default `options = {}`. -/
def Options.empty : Options := ⟨none, none, none⟩

/-- An announcement object.  The object built by `announce` (lines 51-57) has neither `id`
nor `timestamp`; the copy placed in the active set has both. -/
structure Announcement where
  id : Option Nat
  message : String
  priority : String
  category : String
  timeout : Nat
  skipQueue : Bool
  timestamp : Option Nat
  deriving DecidableEq, Repr

/-- The values read from the clock and the random generator during one call. -/
structure Env where
  /-- The value of `Date.now() + Math.random()`. -/
  fresh : Nat
  /-- The value of `Date.now()`. -/
  now : Nat
  deriving DecidableEq, Repr

/-- The functions handed to `setTimeout`. -/
inductive Callback where
  /-- The closure of lines 30-41, which captured `nextAnnouncement`. -/
  | drainExpiry (nextAnnouncement : Announcement)
  /-- The function `processQueue` itself, line 39. -/
  | processQueue
  /-- The closure of lines 72-76, which captured `announcement`. -/
  | urgentExpiry (announcement : Announcement)
  deriving DecidableEq, Repr

/-- A pending `setTimeout`. -/
structure Timer where
  delay : Nat
  callback : Callback
  deriving DecidableEq, Repr

/-- The state of an `AnnouncementProvider`. -/
structure Channel where
  announcements : List Announcement
  announcementQueue : List Announcement
  isProcessing : Bool
  timers : List Timer
  deriving DecidableEq, Repr

/-- The state of a freshly mounted provider (lines 7-9). -/
def Channel.empty : Channel := ⟨[], [], false, []⟩

/-! ## Operations -/

/-- The object literal `{ id: Date.now() + Math.random(), ...a, timestamp: Date.now() }`
(lines 22-26 and 65-69): a property `id` of `a` would override the fresh one. -/
def activate (a : Announcement) (e : Env) : Announcement :=
  { a with
    id := (match a.id with
      | some i => some i
      | none => some e.fresh)
    timestamp := some e.now }

/-- The function `processQueue`, lines 12-42. -/
def processQueue (s : Channel) (e : Env) : Channel :=
  if s.isProcessing || s.announcementQueue.length == 0 then s
  else
    match s.announcementQueue with
    | [] => s
    | nextAnnouncement :: rest =>
      { announcements := s.announcements ++ [activate nextAnnouncement e]
        announcementQueue := rest
        isProcessing := true
        timers := s.timers ++ [⟨3000, Callback.drainExpiry nextAnnouncement⟩] }

/-- The guard of line 46, negated: the message is a non-empty string. -/
def validMessage (message : JSValue) : Bool :=
  !(!message.truthy || message.typeof != "string")

/-- Line 53: `['polite', 'assertive'].includes(priority) ? priority : 'polite'`, with the
default parameter `priority = 'polite'`. -/
def normPriority (priority : JSValue) : String :=
  match priority with
  | .str p => if p = "polite" ∨ p = "assertive" then p else "polite"
  | _ => "polite"

/-- The object built in lines 51-57. -/
def mkAnnouncement (message : String) (priority : JSValue) (options : Options) :
    Announcement :=
  { id := none
    message := jsTrim message
    priority := normPriority priority
    category := (match options.category with
      | some c => if c = "" then "general" else c
      | none => "general")
    timeout := (match options.timeout with
      | some t => if t = 0 then 3000 else t
      | none => 3000)
    skipQueue := (match options.skipQueue with
      | some b => b
      | none => false)
    timestamp := none }

/-- The test of line 61. -/
def isUrgent (a : Announcement) : Bool :=
  a.skipQueue || a.priority == "assertive"

/-- The function `announce`, lines 45-82. -/
def announce (s : Channel) (message priority : JSValue) (options : Options) (e : Env) :
    Channel :=
  if !message.truthy || message.typeof != "string" then s
  else
    match message with
    | .str m =>
      let announcement := mkAnnouncement m priority options
      if announcement.skipQueue || announcement.priority == "assertive" then
        { s with
          announcements := s.announcements ++ [activate announcement e]
          timers := s.timers ++ [⟨announcement.timeout, Callback.urgentExpiry announcement⟩] }
      else
        processQueue
          { s with announcementQueue := s.announcementQueue ++ [announcement] } e
    | _ => s

/-- The function `announceError`, lines 110-116, for a string argument. -/
def announceError (s : Channel) (message : String) (e : Env) : Channel :=
  announce s (.str ("Error: " ++ message)) (.str "assertive")
    ⟨some "error", some 5000, some true⟩ e

/-- The function `clearAllAnnouncements`, lines 137-142.  Pending timers are not cancelled. -/
def clearAllAnnouncements (s : Channel) : Channel :=
  { s with announcements := [], announcementQueue := [], isProcessing := false }

/-- The result object of `getAnnouncementStats`. -/
structure Stats where
  active : Nat
  queued : Nat
  processing : Bool
  categories : List String
  deriving DecidableEq, Repr

/-- The function `getAnnouncementStats`, lines 150-157; `[...new Set(xs)]` keeps the first
occurrence of every element. -/
def getAnnouncementStats (s : Channel) : Stats :=
  { active := s.announcements.length
    queued := s.announcementQueue.length
    processing := s.isProcessing
    categories := (s.announcements.map (fun a => a.category)).foldl
      (fun acc c => if c ∈ acc then acc else acc ++ [c]) [] }

/-- Runs a timer callback. -/
def fireCallback (s : Channel) (e : Env) : Callback → Channel
  | .drainExpiry nextAnnouncement =>
    let s1 : Channel :=
      { s with
        announcements := s.announcements.filter (fun a => a.id != nextAnnouncement.id)
        isProcessing := false }
    if s1.announcementQueue.length > 0 then
      { s1 with timers := s1.timers ++ [⟨100, Callback.processQueue⟩] }
    else s1
  | .processQueue => processQueue s e
  | .urgentExpiry announcement =>
    { s with
      announcements :=
        s.announcements.filter (fun a => a.timestamp != announcement.timestamp) }

/-- The `k`-th pending timer fires: it leaves the pending list and its callback runs. -/
def fire (s : Channel) (k : Nat) (e : Env) : Channel :=
  match s.timers[k]? with
  | none => s
  | some t => fireCallback { s with timers := s.timers.eraseIdx k } e t.callback

/-- What can happen to the channel. -/
inductive Event where
  | announce (message priority : JSValue) (options : Options) (e : Env)
  | fire (k : Nat) (e : Env)
  | clearAll
  deriving DecidableEq, Repr

/-- One event. -/
def step (s : Channel) : Event → Channel
  | .announce message priority options e => announce s message priority options e
  | .fire k e => fire s k e
  | .clearAll => clearAllAnnouncements s

/-- A sequence of events. -/
def run (s : Channel) (evs : List Event) : Channel :=
  evs.foldl step s

/-! ## Schedules and the activations of the queue drain -/

/-- The announcement that a call of `processQueue` in state `s` takes off the queue and
activates, if any (lines 13-18). -/
def drainHead (s : Channel) : Option Announcement :=
  if s.isProcessing || s.announcementQueue.length == 0 then none
  else s.announcementQueue.head?

/-- The announcement activated by the queue drain during one event: `processQueue` is
called by `announce` after the push of line 79 and by the timer of line 39. -/
def drainedBy (s : Channel) : Event → Option Announcement
  | .announce message priority options _ =>
    match message with
    | .str m =>
      if validMessage message && !isUrgent (mkAnnouncement m priority options) then
        drainHead
          { s with
            announcementQueue := s.announcementQueue ++ [mkAnnouncement m priority options] }
      else none
    | _ => none
  | .fire k _ =>
    match s.timers[k]? with
    | some t =>
      match t.callback with
      | .processQueue => drainHead { s with timers := s.timers.eraseIdx k }
      | _ => none
    | none => none
  | .clearAll => none

/-- The announcements activated by the queue drain along a sequence of events, in order. -/
def activations : Channel → List Event → List Announcement
  | _, [] => []
  | s, ev :: evs => (drainedBy s ev).toList ++ activations (step s ev) evs

/-- An `announce` call with a valid message that takes the queue path of lines 77-81. -/
def Event.isPoliteAnnounce : Event → Bool
  | .announce message priority options _ =>
    match message with
    | .str m => validMessage message && !isUrgent (mkAnnouncement m priority options)
    | _ => false
  | _ => false

/-- A timer firing. -/
def Event.isFire : Event → Bool
  | .fire _ _ => true
  | _ => false

/-- The clock and random values read while the event is handled. -/
def Event.env : Event → Env
  | .announce _ _ _ e => e
  | .fire _ e => e
  | .clearAll => ⟨0, 0⟩

/-- A schedule of polite `announce` calls interleaved with timer firings. -/
def PoliteSchedule (evs : List Event) : Prop :=
  ∀ ev ∈ evs, ev.isPoliteAnnounce = true ∨ ev.isFire = true

instance (evs : List Event) : Decidable (PoliteSchedule evs) := by
  unfold PoliteSchedule; infer_instance

/-- The trimmed message handed to `announce` by an event, if it is such a call. -/
def Event.announcedMessage : Event → Option String
  | .announce (.str m) _ _ _ => some (jsTrim m)
  | _ => none

/-- The trimmed messages handed to `announce` along a schedule, in call order. -/
def announcedMessages : List Event → List String
  | [] => []
  | ev :: evs => ev.announcedMessage.toList ++ announcedMessages evs

/-- The timer runs the expiry step of the drain. -/
def Timer.isDrainExpiry (t : Timer) : Bool :=
  match t.callback with
  | .drainExpiry _ => true
  | _ => false

/-- The timer restarts the drain. -/
def Timer.isRestart (t : Timer) : Bool :=
  match t.callback with
  | .processQueue => true
  | _ => false

/-- Invariant of the drain: an expiry step is pending exactly while the drain is in
progress, and a non-empty queue is never left without a drain in progress or a pending
restart. -/
def DrainInv (s : Channel) : Prop :=
  s.timers.countP Timer.isDrainExpiry = (if s.isProcessing then 1 else 0) ∧
    (s.announcementQueue ≠ [] →
      s.isProcessing = true ∨ ∃ t ∈ s.timers, t.isRestart = true)

/-- Invariant of the channel: the announcements of the active set carry an id and a
timestamp; the queued ones, and the ones captured by the pending expiry steps, carry none. -/
def Stamped (s : Channel) : Prop :=
  (∀ a ∈ s.announcements, a.id ≠ none ∧ a.timestamp ≠ none) ∧
    (∀ a ∈ s.announcementQueue, a.id = none) ∧
    (∀ t ∈ s.timers, ∀ n,
      (t.callback = Callback.drainExpiry n → n.id = none) ∧
        (t.callback = Callback.urgentExpiry n → n.timestamp = none))

/-- A bound on the number of timer firings until the channel is quiet. -/
def pendingWork (s : Channel) : Nat :=
  3 * s.announcementQueue.length + s.timers.length + (if s.isProcessing then 1 else 0)

/-- Two polite announcements, then the 3000 ms timer of the first, then the 100 ms timer
that restarts the drain. -/
def twoPolite : List Event :=
  [ .announce (.str "a") .undefined Options.empty ⟨1, 1⟩,
    .announce (.str "b") .undefined Options.empty ⟨2, 2⟩,
    .fire 0 ⟨3001, 3001⟩,
    .fire 0 ⟨3101, 3101⟩ ]

end AnnouncementContext

/-!
# Accessibility preference state

Shallow embedding of `src/contexts/AccessibilityContext.jsx`: the reducer, the mutators of
`AccessibilityProvider`, the class list of `document.body` and the three entries of
`localStorage`.

Modelling conventions.
* Payloads have the type they have at the dispatch sites; a property that may be absent is an
  `Option` field, and `preferences.reducedMotion`, which is `null`, absent or a boolean, is a
  `MotionPref`.
* `body.className` is a string; `classList.add` follows the DOM standard: it raises on an
  empty token or one with white space, and otherwise rewrites the attribute as the ordered
  set of its tokens joined by single spaces.
* `localStorage` is reduced to the three keys the provider uses.
-/

namespace AccessibilityContext

open AnnouncementContext (jsTrim)

/-! ## Strings and class lists -/

/-- The list `s` starts with the list `p`. -/
def startsWith : List Char → List Char → Bool
  | _, [] => true
  | [], _ :: _ => false
  | c :: cs, p :: ps => c == p && startsWith cs ps

/-- The method `String.prototype.includes`. -/
def includes (s sub : String) : Bool :=
  s.data.tails.any (fun t => startsWith t sub.data)

/-- The length of the first alternative, in the order of the regular expression, that
matches at the head of `s`. -/
def matchLength (alternatives : List String) (s : List Char) : Option Nat :=
  (alternatives.find? (fun a => startsWith s a.data)).map String.length

/-- The scan of `String.prototype.replace(re, '')` for a global regular expression that is
an alternation of literal strings: from left to right every match is dropped and the scan
goes on behind it.  `skip` counts the characters of the current match still to be dropped. -/
def removeMatches (alternatives : List String) : Nat → List Char → List Char
  | _, [] => []
  | skip + 1, _ :: cs => removeMatches alternatives skip cs
  | 0, c :: cs =>
    match matchLength alternatives (c :: cs) with
    | some (n + 1) => removeMatches alternatives n cs
    | _ => c :: removeMatches alternatives 0 cs

/-- The call `s.replace(re, '')` for such a regular expression. -/
def replaceAll (alternatives : List String) (s : String) : String :=
  String.mk (removeMatches alternatives 0 s.data)

/-- The expression `/font-(normal|large|extra-large)/g`. -/
def fontPattern : List String := ["font-normal", "font-large", "font-extra-large"]

/-- The expression `/contrast-(normal|high)/g`. -/
def contrastPattern : List String := ["contrast-normal", "contrast-high"]

/-- The expression `/reduced-motion/g`. -/
def motionPattern : List String := ["reduced-motion"]

/-- The expression `/keyboard-navigation/g`. -/
def keyboardPattern : List String := ["keyboard-navigation"]

/-- The expression `/screen-reader-mode/g`. -/
def screenReaderPattern : List String := ["screen-reader-mode"]

/-- ASCII white space, which separates the tokens of a class attribute. -/
def isAsciiWhitespace (c : Char) : Bool :=
  c.val = 0x09 || c.val = 0x0A || c.val = 0x0C || c.val = 0x0D || c.val = 0x20

/-- Splits on ASCII white space; `cur` holds the current token, reversed. -/
def splitTokens : List Char → List Char → List String
  | [], cur => if cur.isEmpty then [] else [String.mk cur.reverse]
  | c :: cs, cur =>
    if isAsciiWhitespace c then
      (if cur.isEmpty then splitTokens cs [] else String.mk cur.reverse :: splitTokens cs [])
    else splitTokens cs (c :: cur)

/-- The ordered set of class tokens of a class attribute: the first occurrence of every
token, in order. -/
def classTokens (className : String) : List String :=
  (splitTokens className.data []).foldl (fun acc t => if t ∈ acc then acc else acc ++ [t]) []

/-- The exceptions raised by `classList.add`. -/
inductive DOMException where
  | syntaxError
  | invalidCharacterError
  deriving DecidableEq, Repr

/-- The call `element.classList.add(token)`, as a function on the class attribute. -/
def classListAdd (className token : String) : Except DOMException String :=
  if token = "" then Except.error DOMException.syntaxError
  else if token.data.any isAsciiWhitespace then Except.error DOMException.invalidCharacterError
  else
    Except.ok (" ".intercalate
      (if token ∈ classTokens className then classTokens className
        else classTokens className ++ [token]))

/-! ## Data model -/

/-- The value of `preferences.reducedMotion`: `null`, absent, or a boolean. -/
inductive MotionPref where
  | null
  | undefined
  | bool (b : Bool)
  deriving DecidableEq, Repr

/-- The object `state.preferences`. -/
structure Preferences where
  fontSize : Option String
  contrastMode : Option String
  reducedMotion : MotionPref
  deriving DecidableEq, Repr

/-- An element of `state.announcements`, built by `ADD_ANNOUNCEMENT`. -/
structure StoreAnnouncement where
  id : Nat
  message : String
  priority : String
  timestamp : Nat
  deriving DecidableEq, Repr

/-- The state of the reducer. -/
structure State where
  fontSize : String
  contrastMode : String
  reducedMotion : Bool
  screenReaderMode : Bool
  keyboardNavigation : Bool
  focusVisible : Bool
  announcements : List StoreAnnouncement
  preferences : Preferences
  deriving DecidableEq, Repr

/-- The constant `initialState`, lines 4-17. -/
def initialState : State :=
  { fontSize := "font-normal"
    contrastMode := "contrast-normal"
    reducedMotion := false
    screenReaderMode := false
    keyboardNavigation := false
    focusVisible := true
    announcements := []
    preferences := { fontSize := some "normal", contrastMode := some "normal",
                     reducedMotion := MotionPref.null } }

/-- The object `preferences` built by `loadAccessibilityPreferences`, the payload of
`LOAD_PREFERENCES`. -/
structure LoadPayload where
  fontSize : Option String
  contrastMode : Option String
  reducedMotion : Option Bool
  preferences : Option Preferences
  deriving DecidableEq, Repr

/-- The actions of the reducer.  `ADD_ANNOUNCEMENT` carries the two values of `Date.now()`
read by the reducer. -/
inductive Action where
  | setFontSize (payload : String)
  | setContrastMode (payload : String)
  | setReducedMotion (payload : Bool)
  | toggleScreenReaderMode (payload : Bool)
  | setKeyboardNavigation (payload : Bool)
  | setFocusVisible (payload : Bool)
  | loadPreferences (payload : LoadPayload)
  | resetPreferences
  | addAnnouncement (message : String) (priority : Option String) (now1 now2 : Nat)
  | clearAnnouncements
  | unknown
  deriving DecidableEq, Repr

/-- The function `accessibilityReducer`, lines 34-117. -/
def accessibilityReducer (state : State) : Action → State
  | .setFontSize payload =>
    { state with
      fontSize := "font-" ++ payload
      preferences := { state.preferences with fontSize := some payload } }
  | .setContrastMode payload =>
    { state with
      contrastMode := "contrast-" ++ payload
      preferences := { state.preferences with contrastMode := some payload } }
  | .setReducedMotion payload =>
    { state with
      reducedMotion := payload
      preferences := { state.preferences with reducedMotion := MotionPref.bool payload } }
  | .toggleScreenReaderMode _ =>
    { state with screenReaderMode := !state.screenReaderMode }
  | .setKeyboardNavigation payload =>
    { state with keyboardNavigation := payload }
  | .setFocusVisible payload =>
    { state with focusVisible := payload }
  | .loadPreferences payload =>
    { state with
      fontSize := (match payload.fontSize with
        | some v => v
        | none => state.fontSize)
      contrastMode := (match payload.contrastMode with
        | some v => v
        | none => state.contrastMode)
      reducedMotion := (match payload.reducedMotion with
        | some v => v
        | none => state.reducedMotion)
      preferences := (match payload.preferences with
        | some v => v
        | none => state.preferences) }
  | .resetPreferences =>
    { initialState with
      reducedMotion := state.reducedMotion
      screenReaderMode := state.screenReaderMode }
  | .addAnnouncement message priority now1 now2 =>
    { state with
      announcements := state.announcements ++
        [{ id := now1
           message := message
           priority := (match priority with
             | some p => if p = "" then "polite" else p
             | none => "polite")
           timestamp := now2 }] }
  | .clearAnnouncements =>
    { state with announcements := [] }
  | .unknown => state

/-- The three entries of `localStorage` used by the provider; `none` is a missing key. -/
structure Storage where
  /-- The key `accessibility_fontSize`. -/
  fontSize : Option String
  /-- The key `accessibility_contrastMode`. -/
  contrastMode : Option String
  /-- The key `accessibility_reducedMotion`. -/
  reducedMotion : Option String
  deriving DecidableEq, Repr

/-- The part of the document the provider writes to: the class attribute of `body` and two
custom properties of the root element. -/
structure Document where
  bodyClass : String
  animationDuration : Option String
  transitionDuration : Option String
  deriving DecidableEq, Repr

/-- What the mutators of the provider act on. -/
structure Store where
  state : State
  storage : Storage
  document : Document
  deriving DecidableEq, Repr

/-! ## Operations of the provider -/

/-- The clean-up of lines 336-342: five replacements, then `trim`. -/
def stripMarkers (className : String) : String :=
  jsTrim (replaceAll screenReaderPattern (replaceAll keyboardPattern
    (replaceAll motionPattern (replaceAll contrastPattern
      (replaceAll fontPattern className)))))

/-- The function `applyAccessibilityClasses`, lines 331-371. -/
def applyAccessibilityClasses (state : State) (doc : Document) :
    Except DOMException Document := do
  let c0 := stripMarkers doc.bodyClass
  let c1 ← if state.fontSize ≠ "" then classListAdd c0 state.fontSize else pure c0
  let c2 ←
    if state.contrastMode ≠ "" ∧ state.contrastMode ≠ "contrast-normal" then
      classListAdd c1 state.contrastMode
    else pure c1
  let c3 ← if state.reducedMotion then classListAdd c2 "reduced-motion" else pure c2
  let duration : Option String := if state.reducedMotion then some "0.01ms" else none
  let c4 ← if state.keyboardNavigation then classListAdd c3 "keyboard-navigation" else pure c3
  let c5 ← if state.screenReaderMode then classListAdd c4 "screen-reader-mode" else pure c4
  pure { bodyClass := c5, animationDuration := duration, transitionDuration := duration }

/-- The ordered set of classes of `body` after a call, if the call returned. -/
def classesAfter (r : Except DOMException Document) : Option (List String) :=
  match r with
  | .ok doc => some (classTokens doc.bodyClass)
  | .error _ => none

/-- The function `getFontSizeLabel`, lines 387-394, for a size that is not the name of an
inherited object property. -/
def getFontSizeLabel (size : String) : String :=
  if size = "normal" then "normal (16px)"
  else if size = "large" then "grande (18px)"
  else if size = "extra-large" then "extra grande (20px)"
  else size

/-- The function `setFontSize`, lines 200-227. -/
def setFontSize (w : Store) (size : String) (now1 now2 : Nat) : Except DOMException Store := do
  let c0 := jsTrim (replaceAll fontPattern w.document.bodyClass)
  let c1 ← classListAdd c0 ("font-" ++ size)
  let s1 := accessibilityReducer w.state (.setFontSize size)
  let s2 := accessibilityReducer s1
    (.addAnnouncement ("Tamaño de fuente cambiado a " ++ getFontSizeLabel size)
      (some "polite") now1 now2)
  pure { state := s2
         storage := { w.storage with fontSize := some size }
         document := { w.document with bodyClass := c1 } }

/-- The function `setContrastMode`, lines 229-247. -/
def setContrastMode (w : Store) (mode : String) (now1 now2 : Nat) : Store :=
  let s1 := accessibilityReducer w.state (.setContrastMode mode)
  let s2 := accessibilityReducer s1
    (.addAnnouncement
      ("Modo de contraste cambiado a " ++ (if mode = "high" then "alto contraste" else "normal"))
      (some "polite") now1 now2)
  { w with state := s2, storage := { w.storage with contrastMode := some mode } }

/-- The function `toggleReducedMotion`, lines 249-265. -/
def toggleReducedMotion (w : Store) (now1 now2 : Nat) : Store :=
  let newValue := !w.state.reducedMotion
  let s1 := accessibilityReducer w.state (.setReducedMotion newValue)
  let s2 := accessibilityReducer s1
    (.addAnnouncement ("Animaciones " ++ (if newValue then "desactivadas" else "activadas"))
      (some "polite") now1 now2)
  { w with
    state := s2
    storage := { w.storage with reducedMotion := some (if newValue then "true" else "false") } }

/-- The spread `...preferences.preferences` of lines 278, 286 and 295: nothing when the
property has not been set yet. -/
def spreadPreferences : Option Preferences → Preferences
  | some p => p
  | none => { fontSize := none, contrastMode := none, reducedMotion := MotionPref.undefined }

/-- The object `preferences` of `loadAccessibilityPreferences` when it is created, line 273. -/
def LoadPayload.empty : LoadPayload :=
  { fontSize := none, contrastMode := none, reducedMotion := none, preferences := none }

/-- Lines 275-281: the stored font size is taken when it is one of the three sizes. -/
def loadFontSize (storage : Storage) (p : LoadPayload) : LoadPayload :=
  match storage.fontSize with
  | some saved =>
    if saved ≠ "" ∧ saved ∈ ["normal", "large", "extra-large"] then
      { p with
        fontSize := some ("font-" ++ saved)
        preferences := some { spreadPreferences p.preferences with fontSize := some saved } }
    else p
  | none => p

/-- Lines 283-289: the stored contrast mode is taken when it is one of the two modes. -/
def loadContrastMode (storage : Storage) (p : LoadPayload) : LoadPayload :=
  match storage.contrastMode with
  | some saved =>
    if saved ≠ "" ∧ saved ∈ ["normal", "high"] then
      { p with
        contrastMode := some ("contrast-" ++ saved)
        preferences := some { spreadPreferences p.preferences with contrastMode := some saved } }
    else p
  | none => p

/-- Lines 291-298: a stored reduced-motion entry is taken whenever there is one. -/
def loadReducedMotion (storage : Storage) (p : LoadPayload) : LoadPayload :=
  match storage.reducedMotion with
  | some saved =>
    { p with
      reducedMotion := some (decide (saved = "true"))
      preferences :=
        some { spreadPreferences p.preferences with
               reducedMotion := MotionPref.bool (decide (saved = "true")) } }
  | none => p

/-- The object `preferences` at line 300 of `loadAccessibilityPreferences`. -/
def loadPayload (storage : Storage) : LoadPayload :=
  loadReducedMotion storage (loadContrastMode storage (loadFontSize storage LoadPayload.empty))

/-- The value of `Object.keys(preferences).length`. -/
def LoadPayload.keyCount (p : LoadPayload) : Nat :=
  (if p.fontSize.isSome then 1 else 0) + (if p.contrastMode.isSome then 1 else 0) +
    (if p.reducedMotion.isSome then 1 else 0) + (if p.preferences.isSome then 1 else 0)

/-- The function `loadAccessibilityPreferences`, lines 267-310.  The body is inside
`try`/`catch`, so the call returns in every case. -/
def loadAccessibilityPreferences (w : Store) : Store :=
  if (loadPayload w.storage).keyCount > 0 then
    { w with state := accessibilityReducer w.state (.loadPreferences (loadPayload w.storage)) }
  else w

/-- The function `resetPreferences`, lines 312-329. -/
def resetPreferences (w : Store) (now1 now2 : Nat) : Store :=
  let s1 := accessibilityReducer w.state .resetPreferences
  let s2 := accessibilityReducer s1
    (.addAnnouncement "Preferencias de accesibilidad restablecidas a valores por defecto"
      (some "polite") now1 now2)
  { w with
    state := s2
    storage := { fontSize := none, contrastMode := none, reducedMotion := none } }

/-! ## The system-detection effect -/

/-- What the effect of lines 127-170 reads from the browser. -/
structure SystemSignals where
  /-- The value of `window.matchMedia('(prefers-reduced-motion: reduce)').matches`. -/
  prefersReducedMotion : Bool
  /-- The truth value of `hasScreenReader`, lines 149-154. -/
  hasScreenReader : Bool
  deriving DecidableEq, Repr

/-- A mounted provider: the reducer state, the dependency value of the last run of the
detection effect (`none` before the first run), and the value of
`state.preferences.reducedMotion` in the closure of the installed `change` listener. -/
structure Provider where
  state : State
  effectDeps : Option MotionPref
  listener : Option MotionPref
  deriving DecidableEq, Repr

/-- One run of the effect body, lines 128-165, in the render whose state is `p.state`: the
dispatches act on the current state, the listener captures the state of that render. -/
def detectionEffect (p : Provider) (sig : SystemSignals) : Provider :=
  let s1 := accessibilityReducer p.state (.setReducedMotion sig.prefersReducedMotion)
  let s2 := if sig.hasScreenReader then accessibilityReducer s1 (.toggleScreenReaderMode true)
    else s1
  { state := s2
    effectDeps := some p.state.preferences.reducedMotion
    listener := some p.state.preferences.reducedMotion }

/-- After a render, the effect runs again when its dependency
`state.preferences.reducedMotion` differs from the one of its last run (line 170); the
clean-up has removed the previous listener. -/
def commit (p : Provider) (sig : SystemSignals) : Provider :=
  if p.effectDeps = some p.state.preferences.reducedMotion then p
  else detectionEffect p sig

/-- Mounting: the first render, the effect, the render it causes and the effect again. -/
def mount (sig : SystemSignals) : Provider :=
  commit (commit { state := initialState, effectDeps := none, listener := none } sig) sig

/-- A `change` event of the media query reaches the installed listener
`handleReducedMotionChange`, lines 136-143. -/
def mediaQueryChange (p : Provider) (matchesNow : Bool) : Provider :=
  match p.listener with
  | some MotionPref.null =>
    { p with state := accessibilityReducer p.state (.setReducedMotion matchesNow) }
  | _ => p

/-! ## The two providers side by side -/

/-- The application state of `main.jsx`, lines 223-227: `AccessibilityProvider` wraps
`AnnouncementProvider`, and no function of the former refers to the latter. -/
structure AppState where
  access : Store
  channel : AnnouncementContext.Channel
  deriving DecidableEq, Repr

/-- The call `setContrastMode` in the application. -/
def AppState.setContrastMode (a : AppState) (mode : String) (now1 now2 : Nat) : AppState :=
  { a with access := AccessibilityContext.setContrastMode a.access mode now1 now2 }

/-- A freshly started application with empty storage. -/
def AppState.initial : AppState :=
  { access :=
      { state := initialState
        storage := { fontSize := none, contrastMode := none, reducedMotion := none }
        document := { bodyClass := "", animationDuration := none, transitionDuration := none } }
    channel := AnnouncementContext.Channel.empty }

end AccessibilityContext

namespace AnnouncementContext

/-! ## Calls made by the other components -/

/-- The function `announceNavigation`, lines 85-89; the argument `route` is not used. -/
def announceNavigation (s : Channel) (pageName : String) (e : Env) : Channel :=
  announce s (.str ("Navegaste a: " ++ pageName)) (.str "polite")
    ⟨some "navigation", none, none⟩ e

/-- The arguments of one call of `announce` made by a component that uses the channel. -/
structure AnnounceCall where
  message : String
  priority : String
  options : Options
  deriving DecidableEq, Repr

/-- The call reaches the channel. -/
def AnnounceCall.apply (c : AnnounceCall) (s : Channel) (e : Env) : Channel :=
  announce s (.str c.message) (.str c.priority) c.options e

/-- The call made by `announceNavigation(pageName, route)`. -/
def navigationCall (pageName : String) : AnnounceCall :=
  { message := "Navegaste a: " ++ pageName, priority := "polite",
    options := ⟨some "navigation", none, none⟩ }

/-- The call `announce(message, 'polite')`. -/
def politeCall (message : String) : AnnounceCall :=
  { message := message, priority := "polite", options := Options.empty }

/-- The category of the announcement a call creates. -/
def AnnounceCall.category (c : AnnounceCall) : String :=
  (mkAnnouncement c.message (.str c.priority) c.options).category

end AnnouncementContext

namespace AccessibilityContext

/-! ## The keyboard-detection effect -/

/-- The input events the detection listeners are registered for. -/
inductive InputEvent where
  | keyDown (key : String)
  | mouseDown
  | touchStart
  deriving DecidableEq, Repr

/-- The effect of lines 173-197: `handleKeyDown` on `keydown`, `handleMouseDown` on
`mousedown`; no listener is registered for `touchstart`. -/
def keyboardDetection (state : State) : InputEvent → State
  | .keyDown key =>
    if key = "Tab" then accessibilityReducer state (.setKeyboardNavigation true) else state
  | .mouseDown => accessibilityReducer state (.setKeyboardNavigation false)
  | .touchStart => state

/-- The text of `'font-' + v` or `'contrast-' + v` for a property that may be absent. -/
def concatProperty (head : String) (v : Option String) : String :=
  match v with
  | some x => head ++ x
  | none => head ++ "undefined"

/-- The class fields agree with the preferences. -/
def classesAgree (state : State) : Bool :=
  state.fontSize == concatProperty "font-" state.preferences.fontSize &&
    state.contrastMode == concatProperty "contrast-" state.preferences.contrastMode

end AccessibilityContext

/-!
# Keyboard dispatcher

Shallow embedding of `src/hooks/useKeyboardNavigation.js` and of the `keydown` listener of
`src/App.jsx`.  A handler is a function from what it reads (the event, the current path,
the results of its document queries) to the list of effects it performs, in order.
-/

namespace KeyboardNavigation

open AnnouncementContext (AnnounceCall navigationCall politeCall isJsWhiteSpace)
open AccessibilityContext (InputEvent DOMException classTokens classListAdd isAsciiWhitespace
  startsWith)

/-! ## Keyboard mode of the hook -/

/-- The call `element.classList.remove(token)`, as a function on the class attribute. -/
def classListRemove (className token : String) : Except DOMException String :=
  if token = "" then Except.error DOMException.syntaxError
  else if token.data.any isAsciiWhitespace then Except.error DOMException.invalidCharacterError
  else Except.ok (" ".intercalate ((classTokens className).filter (fun t => t != token)))

/-- The ref `keyboardModeRef` and the class attribute of `body`. -/
structure KeyboardMode where
  keyboardModeRef : Bool
  bodyClass : String
  deriving DecidableEq, Repr

/-- The listeners `handleKeyboardDetection` (on `keydown`) and `handleMouseDetection` (on
`mousedown` and `touchstart`), lines 25-35 and 277-279. -/
def keyboardModeStep (k : KeyboardMode) : InputEvent → Except DOMException KeyboardMode
  | .keyDown key =>
    if key = "Tab" then do
      let c ← classListAdd k.bodyClass "keyboard-navigation"
      pure { keyboardModeRef := true, bodyClass := c }
    else pure k
  | .mouseDown => do
    let c ← classListRemove k.bodyClass "keyboard-navigation"
    pure { keyboardModeRef := false, bodyClass := c }
  | .touchStart => do
    let c ← classListRemove k.bodyClass "keyboard-navigation"
    pure { keyboardModeRef := false, bodyClass := c }

/-- The value of the ref after a sequence of events, if no call raised. -/
def keyboardModeAfter (k : KeyboardMode) (evs : List InputEvent) : Option Bool :=
  match evs.foldlM keyboardModeStep k with
  | .ok r => some r.keyboardModeRef
  | .error _ => none

/-! ## Events, elements and effects -/

/-- The properties of a `keydown` event that the handlers read. -/
structure KeyEvent where
  key : String
  altKey : Bool
  ctrlKey : Bool
  shiftKey : Bool
  deriving DecidableEq, Repr

/-- The elements the handlers act on, named by the query that found them. -/
inductive Target where
  /-- The element with id `search-resources`. -/
  | searchInput
  /-- The first element of class `skip-link`. -/
  | skipLink
  /-- The first `main` element. -/
  | mainLandmark
  /-- The first `h1` element. -/
  | firstHeading
  /-- The close control of the open dialog. -/
  | closeButton
  /-- The first element with `aria-expanded="true"`. -/
  | expandedMenu
  /-- The first element with `data-escapable="true"`. -/
  | escapableElement
  /-- The item of that index among the matched items of a container. -/
  | item (index : Nat)
  /-- The heading `main h1[tabindex="-1"]`. -/
  | mainTitle
  /-- The element with id `main-content`. -/
  | mainContent
  deriving DecidableEq, Repr

/-- What a handler does, one step at a time. -/
inductive Effect where
  | preventDefault
  | navigate (path : String)
  | setHash (value : String)
  | focus (target : Target)
  | click (target : Target)
  | setAttribute (target : Target) (name value : String)
  | setDisplay (target : Target) (value : String)
  | announce (call : AnnounceCall)
  deriving DecidableEq, Repr

/-- The announcements among the effects, in order. -/
def announcementsOf : List Effect → List AnnounceCall
  | [] => []
  | .announce c :: rest => c :: announcementsOf rest
  | _ :: rest => announcementsOf rest

/-- The elements focused among the effects, in order. -/
def focusedBy : List Effect → List Target
  | [] => []
  | .focus t :: rest => t :: focusedBy rest
  | _ :: rest => focusedBy rest

/-- The results of the document queries of the global handlers. -/
structure Dom where
  /-- Whether `getElementById('search-resources')` finds an element. -/
  searchInput : Bool
  /-- Whether `querySelector('.skip-link')` finds an element. -/
  skipLink : Bool
  /-- Whether `querySelector('main')` finds an element. -/
  mainLandmark : Bool
  /-- Whether `querySelector('h1')` finds an element. -/
  firstHeading : Bool
  /-- The result of `querySelector('[role="dialog"][aria-hidden="false"]')`: `none`, or
  whether the dialog found has a descendant matching `[data-close], .close, .modal-close`. -/
  openModal : Option Bool
  /-- Whether `querySelector('[aria-expanded="true"]')` finds an element. -/
  expandedMenu : Bool
  /-- Whether `querySelector('[data-escapable="true"]')` finds an element. -/
  escapableElement : Bool
  deriving DecidableEq, Repr

/-! ## Global shortcuts -/

/-- The value of a digit of `parseInt` in the given radix. -/
def digitOf (radix : Nat) (c : Char) : Option Nat :=
  let v : Option Nat :=
    if 48 ≤ c.toNat ∧ c.toNat ≤ 57 then some (c.toNat - 48)
    else if 97 ≤ c.toNat ∧ c.toNat ≤ 122 then some (c.toNat - 87)
    else if 65 ≤ c.toNat ∧ c.toNat ≤ 90 then some (c.toNat - 55)
    else none
  match v with
  | some d => if d < radix then some d else none
  | none => none

/-- The longest run of digits at the head of the list, as a number; `none` when there is
no digit. -/
def readDigits (radix : Nat) : List Char → Option Nat → Option Nat
  | [], acc => acc
  | c :: cs, acc =>
    match digitOf radix c with
    | some d =>
      readDigits radix cs (some ((match acc with
        | some a => a
        | none => 0) * radix + d))
    | none => acc

/-- The function `parseInt` with one argument; `none` is `NaN`.  The result is kept as an
integer. -/
def parseInt (s : String) : Option Int :=
  let cs := s.data.dropWhile isJsWhiteSpace
  let negative : Bool :=
    match cs with
    | c :: _ => c = '-'
    | [] => false
  let cs1 : List Char :=
    match cs with
    | c :: r => if c = '-' ∨ c = '+' then r else cs
    | [] => cs
  let hex : Bool :=
    match cs1 with
    | a :: b :: _ => a = '0' ∧ (b = 'x' ∨ b = 'X')
    | _ => false
  let digits : Option Nat :=
    if hex then readDigits 16 (cs1.drop 2) none else readDigits 10 cs1 none
  match digits with
  | some n => some (if negative then -(n : Int) else (n : Int))
  | none => none

/-- The table `routes` of `handleGlobalKeyDown`, lines 48-53: path and name. -/
def routeOf (keyNumber : Int) : Option (String × String) :=
  if keyNumber = 1 then some ("/inicio", "Página de Inicio")
  else if keyNumber = 2 then some ("/recursos", "Recursos Educativos")
  else if keyNumber = 3 then some ("/contacto", "Contacto")
  else if keyNumber = 4 then some ("/accesibilidad", "Declaración de Accesibilidad")
  else none

/-- The function `handleEscapeKey`, lines 99-130. -/
def handleEscapeKey (dom : Dom) : List Effect :=
  if dom.openModal = some true then
    [.click .closeButton, .preventDefault, .announce (politeCall "Modal cerrado")]
  else if dom.expandedMenu then
    [.setAttribute .expandedMenu "aria-expanded" "false", .focus .expandedMenu,
      .preventDefault, .announce (politeCall "Menú cerrado")]
  else if dom.escapableElement then
    [.setDisplay .escapableElement "none",
      .setAttribute .escapableElement "aria-hidden" "true", .preventDefault,
      .announce (politeCall "Elemento cerrado")]
  else []

/-- The Alt+number part of `handleGlobalKeyDown`, lines 42-63: `none` when the handler goes
on to the next shortcut. -/
def altShortcut (pathname : String) (event : KeyEvent) : Option (List Effect) :=
  if event.altKey && !event.ctrlKey && !event.shiftKey then
    match parseInt event.key with
    | some keyNumber =>
      if keyNumber ≥ 1 ∧ keyNumber ≤ 4 then
        some (Effect.preventDefault ::
          (match routeOf keyNumber with
            | some (path, name) =>
              if pathname ≠ path then [.navigate path, .announce (navigationCall name)]
              else []
            | none => []))
      else none
    | none => none
  else none

/-- The function `handleGlobalKeyDown`, lines 40-94. -/
def handleGlobalKeyDown (enableEscapeHandling : Bool) (pathname : String) (dom : Dom)
    (event : KeyEvent) : List Effect :=
  match altShortcut pathname event with
  | some effects => effects
  | none =>
    if event.ctrlKey && event.key == "k" && pathname == "/recursos" then
      Effect.preventDefault ::
        (if dom.searchInput then
          [.focus .searchInput, .announce (politeCall "Enfoque en campo de búsqueda")]
        else [])
    else if event.ctrlKey && event.key == "Home" then
      Effect.preventDefault ::
        (if dom.skipLink then
          [.focus .skipLink, .announce (politeCall "Enfoque en inicio de página")]
        else if dom.mainLandmark then
          [.focus .mainLandmark, .announce (politeCall "Enfoque en inicio de página")]
        else if dom.firstHeading then
          [.focus .firstHeading, .announce (politeCall "Enfoque en inicio de página")]
        else [])
    else if enableEscapeHandling && event.key == "Escape" then handleEscapeKey dom
    else []

/-- The function `getPageTitle` of `App.jsx`, lines 98-106. -/
def getPageTitle (route : String) : String :=
  if route = "/inicio" then "Página de Inicio"
  else if route = "/recursos" then "Recursos Educativos"
  else if route = "/contacto" then "Contacto"
  else if route = "/accesibilidad" then "Declaración de Accesibilidad"
  else "Página"

/-- The array `routes` of `App.jsx`, line 68, read at `keyNumber - 1`. -/
def appRouteOf (keyNumber : Int) : Option String :=
  if keyNumber = 1 then some "/inicio"
  else if keyNumber = 2 then some "/recursos"
  else if keyNumber = 3 then some "/contacto"
  else if keyNumber = 4 then some "/accesibilidad"
  else none

/-- The listener `handleKeyDown` of `App.jsx`, lines 61-92. -/
def appHandleKeyDown (dom : Dom) (event : KeyEvent) : List Effect :=
  (if event.altKey && !event.ctrlKey && !event.shiftKey then
    match parseInt event.key with
    | some keyNumber =>
      if keyNumber ≥ 1 ∧ keyNumber ≤ 4 then
        Effect.preventDefault ::
          (match appRouteOf keyNumber with
            | some targetRoute =>
              [.setHash (String.mk (targetRoute.data.drop 1)),
                .announce (politeCall ("Navegando a " ++ getPageTitle targetRoute))]
            | none => [])
      else []
    | none => []
  else []) ++
  (if event.key == "Escape" then
    (if dom.openModal.isSome then [Effect.preventDefault]
      else if dom.expandedMenu then [Effect.preventDefault]
      else [])
  else [])

/-- A `keydown` event on the document of the running application: it reaches the listener
`handleGlobalKeyDown` of every mounted `useKeyboardNavigation` (the header always has one)
and the listener of `App`. -/
def documentKeyDown (hookInstances : Nat) (pathname : String) (dom : Dom)
    (event : KeyEvent) : List Effect :=
  (List.replicate hookInstances (handleGlobalKeyDown true pathname dom event)).flatten ++
    appHandleKeyDown dom event

/-! ## Arrow navigation -/

/-- The options of `createArrowNavigation` that the handler reads, lines 136-141. -/
structure ArrowOptions where
  orientation : String
  loop : Bool
  focusOnActivate : Bool
  deriving DecidableEq, Repr

/-- What `handleArrowNavigation` reads from the document, lines 144-148. -/
structure ArrowContext where
  /-- Whether `querySelector(containerSelector)` finds the container. -/
  containerFound : Bool
  /-- The value of `container.contains(event.target)`. -/
  targetInside : Bool
  /-- The value of `items.length`. -/
  itemCount : Nat
  /-- The value of `Array.from(items).indexOf(document.activeElement)`, -1 when absent. -/
  currentIndex : Int
  deriving DecidableEq, Repr

/-- The `switch` of lines 156-193: whether `preventDefault` was called, and `nextIndex`. -/
def arrowSwitch (opts : ArrowOptions) (targetInside : Bool) (event : KeyEvent)
    (length currentIndex : Int) : Bool × Int :=
  let isVertical := opts.orientation == "vertical" || opts.orientation == "both"
  let isHorizontal := opts.orientation == "horizontal" || opts.orientation == "both"
  if event.key = "ArrowDown" then
    if isVertical then
      (true, if opts.loop && currentIndex == length - 1 then 0
        else min (currentIndex + 1) (length - 1))
    else (false, currentIndex)
  else if event.key = "ArrowUp" then
    if isVertical then
      (true, if opts.loop && currentIndex == 0 then length - 1 else max (currentIndex - 1) 0)
    else (false, currentIndex)
  else if event.key = "ArrowRight" then
    if isHorizontal then
      (true, if opts.loop && currentIndex == length - 1 then 0
        else min (currentIndex + 1) (length - 1))
    else (false, currentIndex)
  else if event.key = "ArrowLeft" then
    if isHorizontal then
      (true, if opts.loop && currentIndex == 0 then length - 1 else max (currentIndex - 1) 0)
    else (false, currentIndex)
  else if event.key = "Home" then
    if event.ctrlKey || targetInside then (true, 0) else (false, currentIndex)
  else if event.key = "End" then
    if event.ctrlKey || targetInside then (true, length - 1) else (false, currentIndex)
  else (false, currentIndex)

/-- The value of `nextIndex` after the `switch`. -/
def arrowNextIndex (opts : ArrowOptions) (event : KeyEvent) (length currentIndex : Int) : Int :=
  (arrowSwitch opts true event length currentIndex).2

/-- The function `handleArrowNavigation`, lines 143-205. -/
def handleArrowNavigation (opts : ArrowOptions) (ctx : ArrowContext) (event : KeyEvent) :
    List Effect :=
  if !ctx.containerFound || !ctx.targetInside then []
  else if ctx.currentIndex = -1 then []
  else
    let r := arrowSwitch opts ctx.targetInside event ctx.itemCount ctx.currentIndex
    (if r.1 then [Effect.preventDefault] else []) ++
      (if r.2 ≠ ctx.currentIndex ∧ 0 ≤ r.2 ∧ r.2 < ctx.itemCount then
        (if opts.focusOnActivate then [Effect.focus (.item r.2.toNat)] else []) ++
          (if ctx.itemCount > 3 then
            [Effect.announce
              (politeCall ("Elemento " ++ toString (r.2 + 1) ++ " de " ++ toString ctx.itemCount))]
          else [])
      else [])

/-! ## Type-ahead -/

/-- What the type-ahead handler reads of an item. -/
structure TypeaheadItem where
  textContent : String
  /-- The value of `getAttribute('aria-label')`, `none` for `null`. -/
  ariaLabel : Option String
  deriving DecidableEq, Repr

/-- The variables `searchString` and `searchTimeout` of one `createTypeaheadNavigation`; of
the timer only the time at which its delay has elapsed is kept. -/
structure TypeaheadState where
  searchString : String
  timerDue : Option Nat
  deriving DecidableEq, Repr

/-- The state when the handler is installed, lines 218-219. -/
def TypeaheadState.start : TypeaheadState := ⟨"", none⟩

/-- What `handleTypeahead` reads from the document, lines 222-223 and 237. -/
structure TypeaheadContext where
  containerFound : Bool
  targetInside : Bool
  items : List TypeaheadItem
  deriving DecidableEq, Repr

/-- The test `/^[a-zA-Z0-9\u00C0-\u017F]$/` of line 226. -/
def isTypeaheadKey (key : String) : Bool :=
  match key.data with
  | [c] =>
    (97 ≤ c.toNat && c.toNat ≤ 122) || (65 ≤ c.toNat && c.toNat ≤ 90) ||
      (48 ≤ c.toNat && c.toNat ≤ 57) || (0xC0 ≤ c.toNat && c.toNat ≤ 0x17F)
  | _ => false

/-- The text of line 239 before `toLowerCase`:
`item.textContent || item.getAttribute('aria-label') || ''`. -/
def itemText (item : TypeaheadItem) : String :=
  if item.textContent ≠ "" then item.textContent
  else
    match item.ariaLabel with
    | some l => l
    | none => ""

/-- The text interpolated in line 245:
`matchingItem.textContent || matchingItem.getAttribute('aria-label')`. -/
def itemLabel (item : TypeaheadItem) : String :=
  if item.textContent ≠ "" then item.textContent
  else
    match item.ariaLabel with
    | some l => l
    | none => "null"

/-- The search of lines 238-241: the first item, with its index counted from `k`, whose
lower-cased text starts with the search string.  `lower` is `String.prototype.toLowerCase`. -/
def findMatching (lower : String → String) (searchString : String) :
    List TypeaheadItem → Nat → Option (Nat × TypeaheadItem)
  | [], _ => none
  | item :: rest, k =>
    if startsWith (lower (itemText item)).data searchString.data then some (k, item)
    else findMatching lower searchString rest (k + 1)

/-- The function `handleTypeahead`, lines 221-252, called at time `now`. -/
def handleTypeahead (lower : String → String) (ctx : TypeaheadContext) (st : TypeaheadState)
    (key : String) (now : Nat) : TypeaheadState × List Effect :=
  if !ctx.containerFound || !ctx.targetInside then (st, [])
  else if !isTypeaheadKey key then (st, [])
  else
    let searchString := st.searchString ++ lower key
    ({ searchString := searchString, timerDue := some (now + 1000) },
      Effect.preventDefault ::
        (match findMatching lower searchString ctx.items 0 with
          | some (k, item) =>
            [.focus (.item k), .announce (politeCall ("Encontrado: " ++ itemLabel item))]
          | none => []))

/-- The timer callback of lines 249-251 has run when its delay has elapsed. -/
def timerElapsed (st : TypeaheadState) (now : Nat) : TypeaheadState :=
  match st.timerDue with
  | some due => if due ≤ now then { searchString := "", timerDue := none } else st
  | none => st

/-- A `keydown` event at time `now`: a timer whose delay has elapsed has run before. -/
def typeaheadKeyDown (lower : String → String) (ctx : TypeaheadContext) (st : TypeaheadState)
    (stroke : String × Nat) : TypeaheadState × List Effect :=
  handleTypeahead lower ctx (timerElapsed st stroke.2) stroke.1 stroke.2

/-- The state after a sequence of keystrokes with their times. -/
def typeaheadRun (lower : String → String) (ctx : TypeaheadContext) (st : TypeaheadState)
    (strokes : List (String × Nat)) : TypeaheadState :=
  strokes.foldl (fun acc stroke => (typeaheadKeyDown lower ctx acc stroke).1) st

/-- In the words of the specification: the latest keystroke and exactly the preceding
keystrokes chained to it by gaps of less than one second.  The argument lists the
keystrokes latest first, the result oldest first. -/
def chainedKeys : List (String × Nat) → List String
  | [] => []
  | (k, t) :: earlier =>
    match earlier with
    | [] => [k]
    | (_, t0) :: _ => if t < t0 + 1000 then chainedKeys earlier ++ [k] else [k]

/-- A stand-in for `toLowerCase` on ASCII text. -/
def asciiLower (s : String) : String :=
  String.mk (s.data.map Char.toLower)

end KeyboardNavigation

/-!
# Focus coordinator

Shallow embedding of the route-change effect of
`src/components/accessibility/FocusManager.jsx`.
-/

namespace FocusManager

open AnnouncementContext (AnnounceCall navigationCall)
open KeyboardNavigation (Effect Target)

/-- The options object handed to `focusElement`. -/
structure FocusOptions where
  preventScroll : Option Bool
  announce : Option Bool
  announceText : Option String
  delay : Option Nat
  deriving DecidableEq, Repr

/-- A function that could stand for `focusElement`: the effects of a call. -/
abbrev FocusFn := Target → FocusOptions → List Effect

/-- The exceptions of the JavaScript engine that matter here. -/
inductive JSError where
  | typeError
  deriving DecidableEq, Repr

/-- The property names of `contextValue`, `AccessibilityContext.jsx` lines 408-427: the
spread state, then the functions. -/
def contextValueKeys : List String :=
  ["fontSize", "contrastMode", "reducedMotion", "screenReaderMode", "keyboardNavigation",
    "focusVisible", "announcements", "preferences", "setFontSize", "setContrastMode",
    "toggleReducedMotion", "loadAccessibilityPreferences", "resetPreferences",
    "applyAccessibilityClasses", "announce", "clearAnnouncements", "getFontSizeLabel",
    "getContrastLabel", "isHighContrast", "isLargeFont"]

/-- The value `context.focusElement` returned by `useFocusManagement`,
`useFocusManagement.js` line 55: `contextValue` has no property of that name, so the value
is `undefined`. -/
def contextFocusElement : Option FocusFn := none

/-- What the route-change handler reads from the rendered page. -/
structure RenderedPage where
  /-- The `textContent` of the element found by `main h1[tabindex="-1"]`, if there is one. -/
  mainTitle : Option String
  /-- Whether `getElementById('main-content')` finds an element. -/
  mainContent : Bool
  deriving DecidableEq, Repr

/-- The timer callback of `handleRouteChange`, lines 19-53.  Calling `focusElement` when it
is `undefined` raises a `TypeError`. -/
def handleRouteChange (focusElement : Option FocusFn) (page : RenderedPage) :
    Except JSError (List Effect) :=
  match page.mainTitle with
  | some pageTitle =>
    match focusElement with
    | none => Except.error JSError.typeError
    | some f =>
      Except.ok (f Target.mainTitle
          { preventScroll := some false, announce := some false, announceText := none,
            delay := none } ++
        (if pageTitle ≠ "" then [Effect.announce (navigationCall pageTitle)] else []))
  | none =>
    if page.mainContent then
      match focusElement with
      | none => Except.error JSError.typeError
      | some f =>
        Except.ok (f Target.mainContent
          { preventScroll := some false, announce := some true,
            announceText := some "Contenido principal cargado", delay := none })
    else Except.ok [Effect.announce (navigationCall "Nueva página cargada")]

/-- The announcements handed to the channel by a run of the handler; `none` when it raised. -/
def handedOver (r : Except JSError (List Effect)) : Option (List AnnounceCall) :=
  match r with
  | .ok effects => some (KeyboardNavigation.announcementsOf effects)
  | .error _ => none

end FocusManager

namespace AnnouncementContext

/-- The number of announcements the channel holds, queued or active. -/
def Channel.held (s : Channel) : Nat :=
  s.announcements.length + s.announcementQueue.length

end AnnouncementContext

namespace AnnouncementContext

/-! ## Basic facts about `processQueue` -/

theorem processQueue_busy (s : Channel) (e : Env) (h : s.isProcessing = true) :
    processQueue s e = s := by
  simp [processQueue, h]

theorem processQueue_nil (s : Channel) (e : Env) (h : s.announcementQueue = []) :
    processQueue s e = s := by
  simp [processQueue, h]

theorem processQueue_idle (s : Channel) (e : Env) (next : Announcement)
    (rest : List Announcement) (hp : s.isProcessing = false)
    (hq : s.announcementQueue = next :: rest) :
    processQueue s e =
      { announcements := s.announcements ++ [activate next e]
        announcementQueue := rest
        isProcessing := true
        timers := s.timers ++ [⟨3000, Callback.drainExpiry next⟩] } := by
  simp [processQueue, hp, hq]

theorem validMessage_str (m : String) : validMessage (.str m) = true ↔ m ≠ "" := by
  simp [validMessage, JSValue.truthy, JSValue.typeof]

theorem announce_str (s : Channel) (m : String) (priority : JSValue) (options : Options)
    (e : Env) (hm : m ≠ "") :
    announce s (.str m) priority options e =
      if isUrgent (mkAnnouncement m priority options) then
        { s with
          announcements := s.announcements ++ [activate (mkAnnouncement m priority options) e]
          timers := s.timers ++
            [⟨(mkAnnouncement m priority options).timeout,
              Callback.urgentExpiry (mkAnnouncement m priority options)⟩] }
      else
        processQueue
          { s with
            announcementQueue := s.announcementQueue ++ [mkAnnouncement m priority options] }
          e := by
  simp [announce, JSValue.truthy, JSValue.typeof, hm, isUrgent]

/-! ## The urgent path -/

theorem announce_urgent (s : Channel) (m : String) (priority : JSValue) (options : Options)
    (e : Env) (hm : m ≠ "")
    (hu : priority = .str "assertive" ∨ options.skipQueue = some true) :
    (announce s (.str m) priority options e).announcements =
        s.announcements ++ [activate (mkAnnouncement m priority options) e] ∧
      (announce s (.str m) priority options e).announcementQueue = s.announcementQueue ∧
      (announce s (.str m) priority options e).isProcessing = s.isProcessing ∧
      (announce s (.str m) priority options e).timers =
        s.timers ++
          [⟨(mkAnnouncement m priority options).timeout,
            Callback.urgentExpiry (mkAnnouncement m priority options)⟩] := by
  have hurg : isUrgent (mkAnnouncement m priority options) = true := by
    rcases hu with h | h
    · subst h
      simp [isUrgent, mkAnnouncement, normPriority]
    · simp [isUrgent, mkAnnouncement, h]
  rw [announce_str s m priority options e hm]
  simp [hurg]

/-! ## Trimming -/

theorem trim_data_fixed (x c : Char) (xs : List Char) (hx : isJsWhiteSpace x = false)
    (hc : isJsWhiteSpace c = false) :
    ((x :: xs ++ [c]).dropWhile isJsWhiteSpace).rdropWhile isJsWhiteSpace = x :: xs ++ [c] := by
  have h1 : (x :: xs ++ [c]).dropWhile isJsWhiteSpace = (x :: xs) ++ [c] := by
    simp [List.dropWhile, hx]
  rw [h1, List.rdropWhile_concat_neg]
  simp [hc]

theorem error_message_ne_empty (m : String) : "Error: " ++ m ≠ "" := by
  intro h
  have h2 := congrArg String.data h
  rw [String.data_append] at h2
  have h3 : "Error: ".data = [] := (List.append_eq_nil.mp h2).1
  exact absurd h3 (by decide)

theorem jsTrim_error_message (m : String) (c : Char) (hlast : m.data.getLast? = some c)
    (hc : isJsWhiteSpace c = false) : jsTrim ("Error: " ++ m) = "Error: " ++ m := by
  obtain ⟨l, hl⟩ : ∃ l, m.data = l ++ [c] := by
    rcases List.eq_nil_or_concat m.data with h | ⟨l, b, h⟩
    · rw [h] at hlast
      simp at hlast
    · rw [h] at hlast
      simp at hlast
      exact ⟨l, by rw [h, hlast, List.concat_eq_append]⟩
  have hdata : ("Error: " ++ m).data = 'E' :: ("rror: ".data ++ l) ++ [c] := by
    rw [String.data_append, hl]
    rfl
  unfold jsTrim
  rw [hdata, trim_data_fixed 'E' c _ (by decide) hc, ← hdata]

/-! ## The queue drain along a schedule -/

theorem perm_cons_eraseIdx {α : Type} :
    ∀ (l : List α) (k : Nat) (t : α), l[k]? = some t → l.Perm (t :: l.eraseIdx k)
  | [], k, t, h => by simp at h
  | a :: l, 0, t, h => by
    simp at h
    subst h
    simp
  | a :: l, k + 1, t, h => by
    simp at h
    have ih := perm_cons_eraseIdx l k t h
    simp only [List.eraseIdx_cons_succ]
    exact (List.Perm.cons a ih).trans (List.Perm.swap t a _)

theorem drainHead_queue (s : Channel) (e : Env) :
    (drainHead s).toList ++ (processQueue s e).announcementQueue = s.announcementQueue := by
  cases hp : s.isProcessing with
  | true => simp [drainHead, processQueue, hp]
  | false =>
    cases hq : s.announcementQueue with
    | nil => simp [drainHead, processQueue, hp, hq]
    | cons x rest => simp [drainHead, processQueue, hp, hq]

theorem drainHead_activated (s : Channel) (e : Env) :
    (processQueue s e).announcements =
      s.announcements ++ (drainHead s).toList.map (fun a => activate a e) := by
  cases hp : s.isProcessing with
  | true => simp [drainHead, processQueue, hp]
  | false =>
    cases hq : s.announcementQueue with
    | nil => simp [drainHead, processQueue, hp, hq]
    | cons x rest => simp [drainHead, processQueue, hp, hq]

theorem processQueue_inv (s : Channel) (e : Env)
    (h : s.timers.countP Timer.isDrainExpiry = (if s.isProcessing then 1 else 0)) :
    DrainInv (processQueue s e) := by
  cases hp : s.isProcessing with
  | true =>
    rw [processQueue_busy s e hp]
    exact ⟨h, fun _ => Or.inl hp⟩
  | false =>
    cases hq : s.announcementQueue with
    | nil =>
      rw [processQueue_nil s e hq]
      exact ⟨h, fun hne => absurd hq hne⟩
    | cons x rest =>
      rw [processQueue_idle s e x rest hp hq]
      rw [hp] at h
      refine ⟨?_, fun _ => Or.inl rfl⟩
      simp [List.countP_append, h, Timer.isDrainExpiry]

theorem processQueue_work (s : Channel) (e : Env) :
    pendingWork (processQueue s e) ≤ pendingWork s := by
  cases hp : s.isProcessing with
  | true => rw [processQueue_busy s e hp]
  | false =>
    cases hq : s.announcementQueue with
    | nil => rw [processQueue_nil s e hq]
    | cons x rest =>
      rw [processQueue_idle s e x rest hp hq]
      simp [pendingWork, hp, hq]
      omega

theorem announce_polite (s : Channel) (m : String) (priority : JSValue) (options : Options)
    (e : Env) (h : (Event.announce (.str m) priority options e).isPoliteAnnounce = true) :
    announce s (.str m) priority options e =
      processQueue
        { s with
          announcementQueue := s.announcementQueue ++ [mkAnnouncement m priority options] }
        e := by
  simp only [Event.isPoliteAnnounce, Bool.and_eq_true, Bool.not_eq_true', validMessage_str] at h
  rw [announce_str s m priority options e h.1]
  simp [h.2]

theorem fire_none (s : Channel) (k : Nat) (e : Env) (h : s.timers[k]? = none) :
    fire s k e = s := by
  unfold fire
  rw [h]

theorem fire_some (s : Channel) (k : Nat) (e : Env) (t : Timer)
    (h : s.timers[k]? = some t) :
    fire s k e = fireCallback { s with timers := s.timers.eraseIdx k } e t.callback := by
  unfold fire
  rw [h]

theorem fire_inv (s : Channel) (k : Nat) (e : Env) (h : DrainInv s) :
    DrainInv (fire s k e) := by
  cases hk : s.timers[k]? with
  | none => rw [fire_none s k e hk]; exact h
  | some t =>
    rw [fire_some s k e t hk]
    have hperm := perm_cons_eraseIdx s.timers k t hk
    have hcount := hperm.countP_eq Timer.isDrainExpiry
    obtain ⟨h1, h2⟩ := h
    rw [hcount] at h1
    obtain ⟨d, cb⟩ := t
    cases cb with
    | drainExpiry a =>
      simp [List.countP_cons, Timer.isDrainExpiry] at h1
      have hP : s.isProcessing = true := by
        cases hp : s.isProcessing with
        | true => rfl
        | false => rw [hp] at h1; simp at h1
      have h0 : (s.timers.eraseIdx k).countP Timer.isDrainExpiry = 0 := by
        rw [hP] at h1
        simpa using h1
      simp only [fireCallback]
      split
      · rename_i hlen
        refine ⟨?_, fun _ => Or.inr ⟨⟨100, Callback.processQueue⟩, by simp, rfl⟩⟩
        simp only [List.countP_append, h0]
        simp [Timer.isDrainExpiry]
      · rename_i hlen
        refine ⟨by simpa using h0, fun hne => ?_⟩
        exfalso
        apply hlen
        exact List.length_pos.mpr hne
    | processQueue =>
      simp only [fireCallback]
      apply processQueue_inv
      simpa [List.countP_cons, Timer.isDrainExpiry] using h1
    | urgentExpiry a =>
      simp only [fireCallback]
      refine ⟨by simpa [List.countP_cons, Timer.isDrainExpiry] using h1, fun hne => ?_⟩
      rcases h2 hne with hp | ⟨t2, ht2, hr⟩
      · exact Or.inl hp
      · right
        refine ⟨t2, ?_, hr⟩
        rcases (hperm.mem_iff.mp ht2) with hmem
        simp only [List.mem_cons] at hmem
        rcases hmem with heq | hmem
        · subst heq
          simp [Timer.isRestart] at hr
        · exact hmem

theorem fire_work (s : Channel) (k : Nat) (e : Env) :
    pendingWork (fire s k e) ≤ pendingWork s := by
  cases hk : s.timers[k]? with
  | none => rw [fire_none s k e hk]
  | some t =>
    rw [fire_some s k e t hk]
    have hlen := (perm_cons_eraseIdx s.timers k t hk).length_eq
    simp only [List.length_cons] at hlen
    obtain ⟨d, cb⟩ := t
    cases cb with
    | drainExpiry a =>
      simp only [fireCallback]
      split <;> simp [pendingWork] <;> split <;> omega
    | processQueue =>
      simp only [fireCallback]
      refine le_trans (processQueue_work _ e) ?_
      simp [pendingWork]
      omega
    | urgentExpiry a =>
      simp [fireCallback, pendingWork]
      omega

theorem fire_work_lt (s : Channel) (k : Nat) (e : Env) (t : Timer) (h : DrainInv s)
    (hk : s.timers[k]? = some t) : pendingWork (fire s k e) < pendingWork s := by
  rw [fire_some s k e t hk]
  have hperm := perm_cons_eraseIdx s.timers k t hk
  have hlen := hperm.length_eq
  simp only [List.length_cons] at hlen
  obtain ⟨d, cb⟩ := t
  cases cb with
  | drainExpiry a =>
    have h1 := h.1
    rw [hperm.countP_eq Timer.isDrainExpiry] at h1
    simp [List.countP_cons, Timer.isDrainExpiry] at h1
    have hP : s.isProcessing = true := by
      cases hp : s.isProcessing with
      | true => rfl
      | false => rw [hp] at h1; simp at h1
    simp only [fireCallback]
    split <;> simp [pendingWork, hP] <;> omega
  | processQueue =>
    simp only [fireCallback]
    refine lt_of_le_of_lt (processQueue_work _ e) ?_
    simp [pendingWork]
    omega
  | urgentExpiry a =>
    simp [fireCallback, pendingWork]
    omega

theorem step_inv (s : Channel) (ev : Event)
    (hev : ev.isPoliteAnnounce = true ∨ ev.isFire = true) (h : DrainInv s) :
    DrainInv (step s ev) := by
  cases ev with
  | announce message priority options e =>
    cases message with
    | str m =>
      have hpol : (Event.announce (.str m) priority options e).isPoliteAnnounce = true := by
        rcases hev with h1 | h1
        · exact h1
        · simp [Event.isFire] at h1
      simp only [step]
      rw [announce_polite s m priority options e hpol]
      exact processQueue_inv _ e h.1
    | _ => simp [Event.isPoliteAnnounce, Event.isFire] at hev
  | fire k e => exact fire_inv s k e h
  | clearAll => simp [Event.isPoliteAnnounce, Event.isFire] at hev

theorem step_work (s : Channel) (ev : Event)
    (hev : ev.isPoliteAnnounce = true ∨ ev.isFire = true) :
    pendingWork (step s ev) ≤ pendingWork s + 3 := by
  cases ev with
  | announce message priority options e =>
    cases message with
    | str m =>
      have hpol : (Event.announce (.str m) priority options e).isPoliteAnnounce = true := by
        rcases hev with h1 | h1
        · exact h1
        · simp [Event.isFire] at h1
      simp only [step]
      rw [announce_polite s m priority options e hpol]
      refine le_trans (processQueue_work _ e) ?_
      simp [pendingWork]
      omega
    | _ => simp [Event.isPoliteAnnounce, Event.isFire] at hev
  | fire k e => exact le_trans (fire_work s k e) (Nat.le_add_right _ _)
  | clearAll => simp [Event.isPoliteAnnounce, Event.isFire] at hev

theorem step_log (s : Channel) (ev : Event)
    (hev : ev.isPoliteAnnounce = true ∨ ev.isFire = true) :
    (drainedBy s ev).toList ++ (step s ev).announcementQueue =
      s.announcementQueue ++
        (match ev with
          | .announce (.str m) priority options _ => [mkAnnouncement m priority options]
          | _ => []) := by
  cases ev with
  | announce message priority options e =>
    cases message with
    | str m =>
      have hpol : (Event.announce (.str m) priority options e).isPoliteAnnounce = true := by
        rcases hev with h1 | h1
        · exact h1
        · simp [Event.isFire] at h1
      have hcond : (validMessage (.str m) && !isUrgent (mkAnnouncement m priority options))
          = true := hpol
      simp only [step, drainedBy, hcond, if_true]
      rw [announce_polite s m priority options e hpol]
      exact drainHead_queue _ e
    | _ => simp [Event.isPoliteAnnounce, Event.isFire] at hev
  | fire k e =>
    simp only [step]
    cases hk : s.timers[k]? with
    | none =>
      rw [fire_none s k e hk]
      simp [drainedBy, hk]
    | some t =>
      rw [fire_some s k e t hk]
      obtain ⟨d, cb⟩ := t
      cases cb with
      | drainExpiry a =>
        simp only [drainedBy, hk, fireCallback]
        split <;> simp
      | processQueue =>
        simp only [drainedBy, hk, fireCallback]
        simpa using drainHead_queue { s with timers := s.timers.eraseIdx k } e
      | urgentExpiry a =>
        simp [drainedBy, hk, fireCallback]
  | clearAll => simp [Event.isPoliteAnnounce, Event.isFire] at hev

theorem step_log_messages (s : Channel) (ev : Event)
    (hev : ev.isPoliteAnnounce = true ∨ ev.isFire = true) :
    (drainedBy s ev).toList.map (fun a => a.message) ++
        (step s ev).announcementQueue.map (fun a => a.message) =
      s.announcementQueue.map (fun a => a.message) ++ ev.announcedMessage.toList := by
  have h := congrArg (List.map (fun a : Announcement => a.message)) (step_log s ev hev)
  rw [List.map_append, List.map_append] at h
  rw [h]
  congr 1
  cases ev with
  | announce message priority options e =>
    cases message <;> simp [Event.announcedMessage, mkAnnouncement]
  | fire k e => simp [Event.announcedMessage]
  | clearAll => simp [Event.announcedMessage]

theorem run_inv : ∀ (evs : List Event) (s : Channel), PoliteSchedule evs → DrainInv s →
    DrainInv (run s evs)
  | [], _, _, h => h
  | ev :: evs, s, hp, h =>
    run_inv evs (step s ev) (fun x hx => hp x (List.mem_cons_of_mem _ hx))
      (step_inv s ev (hp ev (List.mem_cons_self _ _)) h)

theorem run_work : ∀ (evs : List Event) (s : Channel), PoliteSchedule evs →
    pendingWork (run s evs) ≤ pendingWork s + 3 * evs.length
  | [], _, _ => Nat.le_refl _
  | ev :: evs, s, hp => by
    have h1 := run_work evs (step s ev) (fun x hx => hp x (List.mem_cons_of_mem _ hx))
    have h2 := step_work s ev (hp ev (List.mem_cons_self _ _))
    simp only [List.length_cons]
    show pendingWork (run (step s ev) evs) ≤ _
    omega

theorem run_log : ∀ (evs : List Event) (s : Channel), PoliteSchedule evs →
    (activations s evs).map (fun a => a.message) ++
        (run s evs).announcementQueue.map (fun a => a.message) =
      s.announcementQueue.map (fun a => a.message) ++ announcedMessages evs
  | [], s, _ => by simp [activations, run, announcedMessages]
  | ev :: evs, s, hp => by
    have h1 := run_log evs (step s ev) (fun x hx => hp x (List.mem_cons_of_mem _ hx))
    have h2 := step_log_messages s ev (hp ev (List.mem_cons_self _ _))
    show ((drainedBy s ev).toList ++ activations (step s ev) evs).map (fun a => a.message) ++
        (run (step s ev) evs).announcementQueue.map (fun a => a.message) =
      s.announcementQueue.map (fun a => a.message) ++
        (ev.announcedMessage.toList ++ announcedMessages evs)
    rw [List.map_append, List.append_assoc, h1, ← List.append_assoc, h2, List.append_assoc]

theorem quiet_of_no_timer (s : Channel) (h : DrainInv s) (ht : s.timers = []) :
    s.announcementQueue = [] ∧ s.isProcessing = false := by
  obtain ⟨h1, h2⟩ := h
  rw [ht] at h1 h2
  have hP : s.isProcessing = false := by
    cases hp : s.isProcessing with
    | false => rfl
    | true => rw [hp] at h1; simp at h1
  refine ⟨?_, hP⟩
  by_contra hne
  rcases h2 hne with hp | ⟨t, ht2, _⟩
  · rw [hP] at hp
    exact Bool.noConfusion hp
  · simp at ht2

theorem flush_quiet : ∀ (envs : List Env) (s : Channel), DrainInv s →
    pendingWork s ≤ envs.length →
    (run s (envs.map (Event.fire 0))).announcementQueue = []
  | [], s, _, hw => by
    simp [pendingWork] at hw
    simpa [run] using hw.1.1
  | e :: envs, s, h, hw => by
    show (run (fire s 0 e) (envs.map (Event.fire 0))).announcementQueue = []
    apply flush_quiet envs (fire s 0 e) (fire_inv s 0 e h)
    cases hk : s.timers[0]? with
    | none =>
      rw [fire_none s 0 e hk]
      have ht : s.timers = [] := by
        cases hts : s.timers with
        | nil => rfl
        | cons a l => rw [hts] at hk; simp at hk
      obtain ⟨hq, hP⟩ := quiet_of_no_timer s h ht
      simp [pendingWork, hq, hP, ht]
    | some t =>
      have := fire_work_lt s 0 e t h hk
      simp only [List.length_cons] at hw
      omega

theorem polite_append_fires (evs : List Event) (envs : List Env) (hp : PoliteSchedule evs) :
    PoliteSchedule (evs ++ envs.map (Event.fire 0)) := by
  intro ev hev
  rcases List.mem_append.mp hev with h | h
  · exact hp ev h
  · obtain ⟨e, _, rfl⟩ := List.mem_map.mp h
    exact Or.inr rfl

theorem announcedMessages_append_fires (evs : List Event) (envs : List Env) :
    announcedMessages (evs ++ envs.map (Event.fire 0)) = announcedMessages evs := by
  induction evs with
  | nil =>
    induction envs with
    | nil => rfl
    | cons e envs ih => simpa [announcedMessages, Event.announcedMessage] using ih
  | cons ev evs ih => simp [announcedMessages, ih]

theorem run_append (s : Channel) (a b : List Event) : run s (a ++ b) = run (run s a) b := by
  simp [run, List.foldl_append]

theorem drainInv_empty : DrainInv Channel.empty := by
  constructor
  · rfl
  · intro h
    exact absurd rfl h

theorem activate_stamped (a : Announcement) (e : Env) :
    (activate a e).id ≠ none ∧ (activate a e).timestamp ≠ none := by
  cases h : a.id <;> simp [activate, h]

theorem stamped_empty : Stamped Channel.empty := by
  refine ⟨?_, ?_, ?_⟩ <;> intro x hx <;> simp [Channel.empty] at hx

theorem processQueue_stamped (s : Channel) (e : Env) (h : Stamped s) :
    Stamped (processQueue s e) := by
  cases hp : s.isProcessing with
  | true => rw [processQueue_busy s e hp]; exact h
  | false =>
    cases hq : s.announcementQueue with
    | nil => rw [processQueue_nil s e hq]; exact h
    | cons x rest =>
      rw [processQueue_idle s e x rest hp hq]
      obtain ⟨h1, h2, h3⟩ := h
      rw [hq] at h2
      refine ⟨?_, ?_, ?_⟩
      · intro a ha
        rcases List.mem_append.mp ha with hm | hm
        · exact h1 a hm
        · rw [List.mem_singleton.mp hm]
          exact activate_stamped x e
      · intro a ha
        exact h2 a (List.mem_cons_of_mem _ ha)
      · intro t ht n
        rcases List.mem_append.mp ht with hm | hm
        · exact h3 t hm n
        · rw [List.mem_singleton.mp hm]
          constructor
          · intro hcb
            simp only [Callback.drainExpiry.injEq] at hcb
            rw [← hcb]
            exact h2 x (List.mem_cons_self _ _)
          · intro hcb
            simp at hcb

theorem filter_id_stamped (s : Channel) (h : Stamped s) (a : Announcement)
    (ha : a.id = none) : s.announcements.filter (fun x => x.id != a.id) = s.announcements := by
  rw [List.filter_eq_self]
  intro x hx
  have hne := (h.1 x hx).1
  rw [ha]
  cases hid : x.id with
  | none => exact absurd hid hne
  | some v => rfl

theorem filter_timestamp_stamped (s : Channel) (h : Stamped s) (a : Announcement)
    (ha : a.timestamp = none) :
    s.announcements.filter (fun x => x.timestamp != a.timestamp) = s.announcements := by
  rw [List.filter_eq_self]
  intro x hx
  have hne := (h.1 x hx).2
  rw [ha]
  cases hts : x.timestamp with
  | none => exact absurd hts hne
  | some v => rfl

theorem step_stamped (s : Channel) (ev : Event)
    (hev : ev.isPoliteAnnounce = true ∨ ev.isFire = true) (h : Stamped s) :
    Stamped (step s ev) ∧
      (step s ev).announcements =
        s.announcements ++ (drainedBy s ev).toList.map (fun a => activate a ev.env) := by
  cases ev with
  | announce message priority options e =>
    cases message with
    | str m =>
      have hpol : (Event.announce (.str m) priority options e).isPoliteAnnounce = true := by
        rcases hev with h1 | h1
        · exact h1
        · simp [Event.isFire] at h1
      have hcond : (validMessage (.str m) && !isUrgent (mkAnnouncement m priority options))
          = true := hpol
      simp only [step, drainedBy, hcond, if_true, Event.env]
      rw [announce_polite s m priority options e hpol]
      refine ⟨processQueue_stamped _ e ⟨h.1, ?_, h.2.2⟩, drainHead_activated _ e⟩
      intro a ha
      rcases List.mem_append.mp ha with hm | hm
      · exact h.2.1 a hm
      · rw [List.mem_singleton.mp hm]
        rfl
    | _ => simp [Event.isPoliteAnnounce, Event.isFire] at hev
  | fire k e =>
    simp only [step, Event.env]
    cases hk : s.timers[k]? with
    | none =>
      rw [fire_none s k e hk]
      exact ⟨h, by simp [drainedBy, hk]⟩
    | some t =>
      rw [fire_some s k e t hk]
      have hmem : t ∈ s.timers := List.getElem?_mem hk
      have herased : Stamped { s with timers := s.timers.eraseIdx k } :=
        ⟨h.1, h.2.1, fun t2 ht2 => h.2.2 t2 (List.mem_of_mem_eraseIdx ht2)⟩
      obtain ⟨d, cb⟩ := t
      cases cb with
      | drainExpiry a =>
        have ha : a.id = none := (h.2.2 _ hmem a).1 rfl
        have hfil := filter_id_stamped s h a ha
        simp only [drainedBy, hk, fireCallback]
        split
        · refine ⟨⟨?_, h.2.1, ?_⟩, by simp [hfil]⟩
          · simpa [hfil] using h.1
          · intro t2 ht2 n
            rcases List.mem_append.mp ht2 with hm | hm
            · exact herased.2.2 t2 hm n
            · rw [List.mem_singleton.mp hm]
              constructor <;> intro hcb <;> simp at hcb
        · refine ⟨⟨?_, h.2.1, herased.2.2⟩, by simp [hfil]⟩
          simpa [hfil] using h.1
      | processQueue =>
        simp only [drainedBy, hk, fireCallback]
        exact ⟨processQueue_stamped _ e herased,
          drainHead_activated { s with timers := s.timers.eraseIdx k } e⟩
      | urgentExpiry a =>
        have ha : a.timestamp = none := (h.2.2 _ hmem a).2 rfl
        have hfil := filter_timestamp_stamped s h a ha
        simp only [drainedBy, hk, fireCallback]
        refine ⟨⟨?_, h.2.1, herased.2.2⟩, by simp [hfil]⟩
        simpa [hfil] using h.1
  | clearAll => simp [Event.isPoliteAnnounce, Event.isFire] at hev

theorem run_announcements : ∀ (evs : List Event) (s : Channel), PoliteSchedule evs →
    Stamped s →
    (run s evs).announcements.map (fun a => a.message) =
      s.announcements.map (fun a => a.message) ++
        (activations s evs).map (fun a => a.message)
  | [], s, _, _ => by simp [activations, run]
  | ev :: evs, s, hp, h => by
    obtain ⟨hst, heq⟩ := step_stamped s ev (hp ev (List.mem_cons_self _ _)) h
    have ih := run_announcements evs (step s ev)
      (fun x hx => hp x (List.mem_cons_of_mem _ hx)) hst
    show (run (step s ev) evs).announcements.map (fun a => a.message) =
      s.announcements.map (fun a => a.message) ++
        ((drainedBy s ev).toList ++ activations (step s ev) evs).map (fun a => a.message)
    rw [ih, heq]
    cases drainedBy s ev <;> simp [activate]

theorem step_announcements (s : Channel) (ev : Event)
    (hev : ev.isPoliteAnnounce = true ∨ ev.isFire = true) :
    ∃ kept, kept.Sublist s.announcements ∧
      (drainedBy s ev ≠ none → kept = s.announcements) ∧
      (step s ev).announcements =
        kept ++ (drainedBy s ev).toList.map (fun a => activate a ev.env) := by
  cases ev with
  | announce message priority options e =>
    cases message with
    | str m =>
      have hpol : (Event.announce (.str m) priority options e).isPoliteAnnounce = true := by
        rcases hev with h1 | h1
        · exact h1
        · simp [Event.isFire] at h1
      have hcond : (validMessage (.str m) && !isUrgent (mkAnnouncement m priority options))
          = true := hpol
      refine ⟨s.announcements, List.Sublist.refl _, fun _ => rfl, ?_⟩
      simp only [step, drainedBy, hcond, if_true, Event.env]
      rw [announce_polite s m priority options e hpol]
      exact drainHead_activated _ e
    | _ => simp [Event.isPoliteAnnounce, Event.isFire] at hev
  | fire k e =>
    simp only [step, Event.env]
    cases hk : s.timers[k]? with
    | none =>
      rw [fire_none s k e hk]
      exact ⟨s.announcements, List.Sublist.refl _, fun _ => rfl, by simp [drainedBy, hk]⟩
    | some t =>
      rw [fire_some s k e t hk]
      obtain ⟨d, cb⟩ := t
      cases cb with
      | drainExpiry a =>
        refine ⟨s.announcements.filter (fun x => x.id != a.id), List.filter_sublist _,
          fun h => absurd (by simp [drainedBy, hk]) h, ?_⟩
        simp only [drainedBy, hk, fireCallback]
        split <;> simp
      | processQueue =>
        refine ⟨s.announcements, List.Sublist.refl _, fun _ => rfl, ?_⟩
        simp only [drainedBy, hk, fireCallback]
        exact drainHead_activated { s with timers := s.timers.eraseIdx k } e
      | urgentExpiry a =>
        refine ⟨s.announcements.filter (fun x => x.timestamp != a.timestamp),
          List.filter_sublist _, fun h => absurd (by simp [drainedBy, hk]) h, ?_⟩
        simp [drainedBy, hk, fireCallback]
  | clearAll => simp [Event.isPoliteAnnounce, Event.isFire] at hev

end AnnouncementContext

namespace AnnouncementContext

/-! ## The claims -/

/-- C1 (fails on the code): after two polite announcements, the expiry of the first and the
restart of the drain, the active set holds both announcements, each with priority polite. -/
theorem two_polite_announcements_active :
    PoliteSchedule twoPolite ∧
    (run Channel.empty twoPolite).announcements.map (fun a => (a.message, a.priority)) =
      [("a", "polite"), ("b", "polite")] := by
  constructor
  · decide
  · decide

/-- C2 (fails on the code): when the drain activates the second announcement, the first one
is still in the active set, because the expiry step of the first removed nothing. -/
theorem expiry_step_keeps_first_announcement :
    (run Channel.empty (twoPolite.take 2)).announcements.map (fun a => a.message) = ["a"] ∧
    (run Channel.empty (twoPolite.take 3)).announcements =
      (run Channel.empty (twoPolite.take 2)).announcements ∧
    (drainedBy (run Channel.empty (twoPolite.take 3)) (.fire 0 ⟨3101, 3101⟩)).map
      (fun a => a.message) = some "b" ∧
    (run Channel.empty twoPolite).announcements.map (fun a => a.message) = ["a", "b"] := by
  refine ⟨?_, ?_, ?_, ?_⟩ <;> decide

/-- C4: an assertive or skipQueue announcement with a valid message is appended to the
active set in the same step, with its expiry timer; the polite queue and the
drain-in-progress flag are unchanged. -/
theorem urgent_bypass (s : Channel) (m : String) (priority : JSValue) (options : Options)
    (e : Env) (hm : m ≠ "")
    (hu : priority = .str "assertive" ∨ options.skipQueue = some true) :
    (announce s (.str m) priority options e).announcements =
        s.announcements ++ [activate (mkAnnouncement m priority options) e] ∧
      (announce s (.str m) priority options e).announcementQueue = s.announcementQueue ∧
      (announce s (.str m) priority options e).isProcessing = s.isProcessing ∧
      (announce s (.str m) priority options e).timers =
        s.timers ++
          [⟨(mkAnnouncement m priority options).timeout,
            Callback.urgentExpiry (mkAnnouncement m priority options)⟩] :=
  announce_urgent s m priority options e hm hu

/-- Witness of C4: an assertive announcement while two polite ones are queued and a drain is
in progress. -/
theorem urgent_bypass_witness :
    (announce ⟨[], [mkAnnouncement "p" .undefined Options.empty,
          mkAnnouncement "q" .undefined Options.empty], true, []⟩
        (.str "now") (.str "assertive") Options.empty ⟨7, 7⟩).announcementQueue =
      [mkAnnouncement "p" .undefined Options.empty,
        mkAnnouncement "q" .undefined Options.empty] :=
  (urgent_bypass ⟨[], [mkAnnouncement "p" .undefined Options.empty,
      mkAnnouncement "q" .undefined Options.empty], true, []⟩
    "now" (.str "assertive") Options.empty ⟨7, 7⟩ (by decide) (Or.inl rfl)).2.1

/-- C5 (fails on the code): after an assertive announcement and the firing of its expiry
timer, the announcement is still in the active set. -/
theorem urgent_expiry_removes_nothing :
    (run Channel.empty
        [.announce (.str "x") (.str "assertive") Options.empty ⟨1, 1⟩,
          .fire 0 ⟨3001, 3001⟩]).announcements.map (fun a => a.message) = ["x"] ∧
    (run Channel.empty
        [.announce (.str "x") (.str "assertive") Options.empty ⟨1, 1⟩,
          .fire 0 ⟨3001, 3001⟩]).timers = [] := by
  constructor <;> decide

/-- C6: `announce` with a message that is empty or not a string returns the channel state
unchanged: active set, queue, drain flag and pending timers. -/
theorem invalid_message_noop (s : Channel) (message priority : JSValue) (options : Options)
    (e : Env) (h : message = .str "" ∨ ∀ m, message ≠ .str m) :
    announce s message priority options e = s := by
  rcases h with h | h
  · subst h
    simp [announce, JSValue.truthy]
  · cases message with
    | str m => exact absurd rfl (h m)
    | undefined => simp [announce, JSValue.truthy]
    | null => simp [announce, JSValue.truthy]
    | bool b => simp [announce, JSValue.typeof]
    | num n => simp [announce, JSValue.typeof]
    | obj => simp [announce, JSValue.typeof]

/-- Witness of C6: the empty string on a busy channel. -/
theorem invalid_message_noop_witness :
    announce ⟨[], [mkAnnouncement "p" .undefined Options.empty], true,
        [⟨3000, Callback.processQueue⟩]⟩ (.str "") .undefined Options.empty ⟨1, 1⟩ =
      ⟨[], [mkAnnouncement "p" .undefined Options.empty], true,
        [⟨3000, Callback.processQueue⟩]⟩ :=
  invalid_message_noop _ (.str "") .undefined Options.empty ⟨1, 1⟩ (Or.inl rfl)

/-- C7 (fails on the code): a message made only of white space passes the guard of line 46
and is trimmed to the empty string, which is then activated (or queued when the drain is
busy). -/
theorem whitespace_message_announced_empty :
    (announce Channel.empty (.str "   ") .undefined Options.empty ⟨1, 1⟩).announcements.map
        (fun a => a.message) = [""] ∧
    (announce ⟨[], [], true, []⟩ (.str "   ") .undefined Options.empty
        ⟨1, 1⟩).announcementQueue.map (fun a => a.message) = [""] ∧
    (announce Channel.empty (.str "   ") (.str "assertive") Options.empty
        ⟨1, 1⟩).announcements.map (fun a => a.message) = [""] := by
  refine ⟨?_, ?_, ?_⟩ <;> decide

/-- C8 (as stated, fails): a polite announcement enqueued with the option `timeout: 5000`
is given an expiry timer of 3000 ms, although its `timeout` field is 5000. -/
theorem drain_hold_ignores_timeout_option :
    (announce Channel.empty (.str "a") (.str "polite") ⟨none, some 5000, none⟩
        ⟨1, 1⟩).timers.map (fun t => t.delay) = [3000] ∧
    (announce Channel.empty (.str "a") (.str "polite") ⟨none, some 5000, none⟩
        ⟨1, 1⟩).announcements.map (fun a => a.timeout) = [5000] := by
  constructor <;> decide

/-- C8 (amended): when the idle drain takes an announcement off the queue it activates it and
schedules the expiry step after 3000 ms, whatever the `timeout` of the announcement; when
that step runs, the drain is idle. -/
theorem drain_hold_is_3000 (s : Channel) (e : Env) (next : Announcement)
    (rest : List Announcement) (hp : s.isProcessing = false)
    (hq : s.announcementQueue = next :: rest) :
    (processQueue s e).announcements = s.announcements ++ [activate next e] ∧
      (processQueue s e).isProcessing = true ∧
      (processQueue s e).timers = s.timers ++ [⟨3000, Callback.drainExpiry next⟩] ∧
      ∀ (s2 : Channel) (e2 : Env),
        (fireCallback s2 e2 (Callback.drainExpiry next)).isProcessing = false := by
  rw [processQueue_idle s e next rest hp hq]
  refine ⟨rfl, rfl, rfl, ?_⟩
  intro s2 e2
  simp only [fireCallback]
  split <;> rfl

/-- Witness of C8 (amended): an announcement with `timeout` 5000 at the head of the queue. -/
theorem drain_hold_is_3000_witness :
    (processQueue ⟨[], [mkAnnouncement "a" .undefined ⟨none, some 5000, none⟩], false, []⟩
        ⟨1, 1⟩).timers =
      [⟨3000, Callback.drainExpiry (mkAnnouncement "a" .undefined ⟨none, some 5000, none⟩)⟩] :=
  (drain_hold_is_3000 ⟨[], [mkAnnouncement "a" .undefined ⟨none, some 5000, none⟩], false, []⟩
    ⟨1, 1⟩ (mkAnnouncement "a" .undefined ⟨none, some 5000, none⟩) [] rfl rfl).2.2.1

/-- C9: after `clearAllAnnouncements` the active set and the queue are empty and the drain
is idle, so `getAnnouncementStats` reports active 0, queued 0, processing false and no
category. -/
theorem clearAll_resets (s : Channel) :
    (clearAllAnnouncements s).announcements = [] ∧
      (clearAllAnnouncements s).announcementQueue = [] ∧
      (clearAllAnnouncements s).isProcessing = false ∧
      getAnnouncementStats (clearAllAnnouncements s) = ⟨0, 0, false, []⟩ := by
  refine ⟨rfl, rfl, rfl, rfl⟩

/-- C10 (as stated, fails): for the non-empty message `"x "` the announcement created by
`announceError` carries `"Error: x"`, which is not `"Error: "` followed by the message. -/
theorem announceError_trims_message :
    (announceError Channel.empty "x " ⟨1, 1⟩).announcements.map (fun a => a.message) =
        ["Error: x"] ∧
      "Error: x" ≠ "Error: " ++ "x " := by
  constructor <;> decide

/-- C10 (amended): for every non-empty string `m`, `announceError` appends to the active set
one announcement with priority assertive, category error, timeout 5000 and the trimmed text
of `"Error: "` followed by `m` as message, which is `"Error: "` followed by `m` itself when
`m` does not end in white space; the polite queue and the drain flag are unchanged. -/
theorem announceError_spec (s : Channel) (m : String) (e : Env) (hm : m ≠ "") :
    (announceError s m e).announcements =
        s.announcements ++
          [{ id := some e.fresh
             message := jsTrim ("Error: " ++ m)
             priority := "assertive"
             category := "error"
             timeout := 5000
             skipQueue := true
             timestamp := some e.now }] ∧
      (announceError s m e).announcementQueue = s.announcementQueue ∧
      (announceError s m e).isProcessing = s.isProcessing ∧
      ((∀ c, m.data.getLast? = some c → isJsWhiteSpace c = false) →
        jsTrim ("Error: " ++ m) = "Error: " ++ m) := by
  have hne : "Error: " ++ m ≠ "" := error_message_ne_empty m
  have hb := announce_urgent s ("Error: " ++ m) (.str "assertive")
    ⟨some "error", some 5000, some true⟩ e hne (Or.inl rfl)
  refine ⟨?_, hb.2.1, hb.2.2.1, ?_⟩
  · rw [announceError, hb.1]
    simp [activate, mkAnnouncement, normPriority]
  · intro hlast
    cases hd : m.data.getLast? with
    | none =>
      exfalso
      apply hm
      have hnil : m.data = [] := List.getLast?_eq_none_iff.mp hd
      cases m
      simp only at hnil
      subst hnil
      rfl
    | some c => exact jsTrim_error_message m c hd (hlast c hd)

/-- Witness of C10 (amended): `announceError("fallo")` on the empty channel. -/
theorem announceError_spec_witness :
    (announceError Channel.empty "fallo" ⟨1, 1⟩).announcements =
        Channel.empty.announcements ++
          [{ id := some 1
             message := jsTrim ("Error: " ++ "fallo")
             priority := "assertive"
             category := "error"
             timeout := 5000
             skipQueue := true
             timestamp := some 1 }] ∧
      jsTrim ("Error: " ++ "fallo") = "Error: " ++ "fallo" :=
  ⟨(announceError_spec Channel.empty "fallo" ⟨1, 1⟩ (by decide)).1,
    (announceError_spec Channel.empty "fallo" ⟨1, 1⟩ (by decide)).2.2.2
      (fun c hc => by
        have h : c = 'o' := by simpa using hc.symm
        subst h
        decide)⟩

/-- C3: along every schedule of polite `announce` calls with valid messages, interleaved in
any way with timer firings, the messages activated by the queue drain followed by the
messages still queued are exactly the trimmed messages handed to `announce`, in call order;
once the pending timers have been left to fire, every one of them has been activated: the
activated sequence is the announced sequence, nothing dropped or duplicated.  Activated
means put into the active set: at every step of such a schedule, from every state, the
announcement the drain takes off the queue is appended, with its id and timestamp, to the
list `announcements`, and a step without drain puts nothing new into that list; along a
schedule from the empty channel the messages of that list are the activated messages, in
the order of their activation. -/
theorem fifo_activation (evs : List Event) (envs : List Env) (hp : PoliteSchedule evs)
    (hl : 3 * evs.length ≤ envs.length) :
    (activations Channel.empty evs).map (fun a => a.message) ++
          (run Channel.empty evs).announcementQueue.map (fun a => a.message) =
        announcedMessages evs ∧
      (activations Channel.empty (evs ++ envs.map (Event.fire 0))).map (fun a => a.message) =
        announcedMessages evs ∧
      (∀ (s : Channel) (ev : Event) (a : Announcement),
        (ev.isPoliteAnnounce = true ∨ ev.isFire = true) → drainedBy s ev = some a →
          (step s ev).announcements = s.announcements ++ [activate a ev.env]) ∧
      (∀ (s : Channel) (ev : Event),
        (ev.isPoliteAnnounce = true ∨ ev.isFire = true) → drainedBy s ev = none →
          (step s ev).announcements.Sublist s.announcements) ∧
      (run Channel.empty evs).announcements.map (fun a => a.message) =
        (activations Channel.empty evs).map (fun a => a.message) := by
  refine ⟨?_, ?_, ?_, ?_, ?_⟩
  · simpa [Channel.empty] using run_log evs Channel.empty hp
  · have hlog := run_log (evs ++ envs.map (Event.fire 0)) Channel.empty
      (polite_append_fires evs envs hp)
    have hinv := run_inv evs Channel.empty hp drainInv_empty
    have hwork := run_work evs Channel.empty hp
    have hw0 : pendingWork Channel.empty = 0 := rfl
    have hq := flush_quiet envs (run Channel.empty evs) hinv (by omega)
    rw [run_append, hq, announcedMessages_append_fires] at hlog
    simpa [Channel.empty] using hlog
  · intro s ev a hev hd
    obtain ⟨kept, _, hkeep, heq⟩ := step_announcements s ev hev
    rw [heq, hkeep (by rw [hd]; exact Option.some_ne_none a), hd]
    rfl
  · intro s ev hev hd
    obtain ⟨kept, hsub, _, heq⟩ := step_announcements s ev hev
    rw [heq, hd]
    simpa using hsub
  · simpa [Channel.empty] using run_announcements evs Channel.empty hp stamped_empty

/-- Witness of C3: three polite announcements, the second one made while the first is
active, the third while the restart timer of the drain is pending; the first one is put
into the active set by its own `announce` call. -/
theorem fifo_activation_witness :
    (activations Channel.empty
        ([.announce (.str " uno ") .undefined Options.empty ⟨1, 1⟩,
          .announce (.str "dos") (.str "polite") Options.empty ⟨2, 2⟩,
          .fire 0 ⟨3001, 3001⟩,
          .announce (.str "tres") .undefined ⟨some "status", none, none⟩ ⟨3050, 3050⟩] ++
          (List.replicate 12 (⟨9000, 9000⟩ : Env)).map (Event.fire 0))).map
        (fun a => a.message) = ["uno", "dos", "tres"] ∧
      (step Channel.empty
          (.announce (.str " uno ") .undefined Options.empty ⟨1, 1⟩)).announcements =
        Channel.empty.announcements ++
          [activate (mkAnnouncement " uno " .undefined Options.empty) ⟨1, 1⟩] :=
  ⟨(fifo_activation
      [.announce (.str " uno ") .undefined Options.empty ⟨1, 1⟩,
        .announce (.str "dos") (.str "polite") Options.empty ⟨2, 2⟩,
        .fire 0 ⟨3001, 3001⟩,
        .announce (.str "tres") .undefined ⟨some "status", none, none⟩ ⟨3050, 3050⟩]
      (List.replicate 12 ⟨9000, 9000⟩) (by decide) (by decide)).2.1,
    (fifo_activation [] [] (by decide) (by decide)).2.2.1 Channel.empty
      (.announce (.str " uno ") .undefined Options.empty ⟨1, 1⟩)
      (mkAnnouncement " uno " .undefined Options.empty) (Or.inl (by decide)) (by decide)⟩

end AnnouncementContext

namespace AccessibilityContext

open AnnouncementContext (jsTrim)

/-! ## Facts about loading and the class list -/

theorem classListAdd_font (className size : String)
    (hs : size ∈ ["normal", "large", "extra-large"]) :
    ∃ c, classListAdd className ("font-" ++ size) = Except.ok c := by
  simp only [List.mem_cons, List.mem_singleton, List.not_mem_nil, or_false] at hs
  rcases hs with h | h | h <;> subst h <;> unfold classListAdd <;>
    rw [if_neg (by decide), if_neg (by decide)] <;> exact ⟨_, rfl⟩

theorem setFontSize_storage (w : Store) (size : String) (now1 now2 : Nat)
    (hs : size ∈ ["normal", "large", "extra-large"]) :
    ∃ w1, setFontSize w size now1 now2 = Except.ok w1 ∧
      w1.storage = { w.storage with fontSize := some size } := by
  obtain ⟨c, hc⟩ := classListAdd_font (jsTrim (replaceAll fontPattern w.document.bodyClass))
    size hs
  simp only [setFontSize, hc, bind, Except.bind, pure, Except.pure]
  exact ⟨_, rfl, rfl⟩

theorem loadContrastMode_keeps (storage : Storage) (p : LoadPayload) :
    (loadContrastMode storage p).fontSize = p.fontSize ∧
      (loadContrastMode storage p).reducedMotion = p.reducedMotion ∧
      ∀ q, p.preferences = some q →
        ∃ q1, (loadContrastMode storage p).preferences = some q1 ∧
          q1.fontSize = q.fontSize ∧ q1.reducedMotion = q.reducedMotion := by
  unfold loadContrastMode
  cases storage.contrastMode with
  | none => exact ⟨rfl, rfl, fun q hq => ⟨q, hq, rfl, rfl⟩⟩
  | some saved =>
    simp only
    split
    · refine ⟨rfl, rfl, fun q hq => ⟨_, rfl, ?_, ?_⟩⟩ <;> simp [hq, spreadPreferences]
    · exact ⟨rfl, rfl, fun q hq => ⟨q, hq, rfl, rfl⟩⟩

theorem loadReducedMotion_keeps (storage : Storage) (p : LoadPayload) :
    (loadReducedMotion storage p).fontSize = p.fontSize ∧
      (loadReducedMotion storage p).contrastMode = p.contrastMode ∧
      ∀ q, p.preferences = some q →
        ∃ q1, (loadReducedMotion storage p).preferences = some q1 ∧
          q1.fontSize = q.fontSize ∧ q1.contrastMode = q.contrastMode := by
  unfold loadReducedMotion
  cases storage.reducedMotion with
  | none => exact ⟨rfl, rfl, fun q hq => ⟨q, hq, rfl, rfl⟩⟩
  | some saved =>
    refine ⟨rfl, rfl, fun q hq => ⟨_, rfl, ?_, ?_⟩⟩ <;> simp [hq, spreadPreferences]

theorem keyCount_pos (p : LoadPayload) (q : Preferences) (h : p.preferences = some q) :
    p.keyCount > 0 := by
  simp [LoadPayload.keyCount, h]

theorem load_of_preferences (w : Store) (q : Preferences)
    (h : (loadPayload w.storage).preferences = some q) :
    (loadAccessibilityPreferences w).state =
      accessibilityReducer w.state (.loadPreferences (loadPayload w.storage)) := by
  unfold loadAccessibilityPreferences
  rw [if_pos (keyCount_pos _ q h)]

theorem load_fontSize (state : State) (storage : Storage) (d : Document) (size : String)
    (hs : size ∈ ["normal", "large", "extra-large"]) (h : storage.fontSize = some size) :
    (loadAccessibilityPreferences ⟨state, storage, d⟩).state.preferences.fontSize = some size ∧
      (loadAccessibilityPreferences ⟨state, storage, d⟩).state.fontSize = "font-" ++ size := by
  have hne : size ≠ "" := by
    simp only [List.mem_cons, List.mem_singleton, List.not_mem_nil, or_false] at hs
    rcases hs with h | h | h <;> subst h <;> decide
  have h1 : loadFontSize storage LoadPayload.empty =
      { LoadPayload.empty with
        fontSize := some ("font-" ++ size)
        preferences :=
          some { spreadPreferences LoadPayload.empty.preferences with fontSize := some size } } := by
    unfold loadFontSize
    rw [h]
    simp only
    rw [if_pos ⟨hne, hs⟩]
  obtain ⟨hc1, _, hc3⟩ := loadContrastMode_keeps storage (loadFontSize storage LoadPayload.empty)
  obtain ⟨q1, hq1, hq1f, _⟩ := hc3 _ (by rw [h1])
  obtain ⟨hm1, _, hm3⟩ := loadReducedMotion_keeps storage
    (loadContrastMode storage (loadFontSize storage LoadPayload.empty))
  obtain ⟨q2, hq2, hq2f, _⟩ := hm3 q1 hq1
  have hpay : (loadPayload storage).preferences = some q2 := hq2
  have hfont : (loadPayload storage).fontSize = some ("font-" ++ size) := by
    show (loadReducedMotion storage _).fontSize = _
    rw [hm1, hc1, h1]
  rw [load_of_preferences ⟨state, storage, d⟩ q2 hpay]
  simp only [accessibilityReducer, hpay, hfont]
  rw [hq2f, hq1f]
  exact ⟨rfl, trivial⟩

theorem load_contrastMode (state : State) (storage : Storage) (d : Document) (mode : String)
    (hm : mode ∈ ["normal", "high"]) (h : storage.contrastMode = some mode) :
    (loadAccessibilityPreferences ⟨state, storage, d⟩).state.preferences.contrastMode =
        some mode ∧
      (loadAccessibilityPreferences ⟨state, storage, d⟩).state.contrastMode =
        "contrast-" ++ mode := by
  have hne : mode ≠ "" := by
    simp only [List.mem_cons, List.mem_singleton, List.not_mem_nil, or_false] at hm
    rcases hm with h | h <;> subst h <;> decide
  have h1 : ∀ p, loadContrastMode storage p =
      { p with
        contrastMode := some ("contrast-" ++ mode)
        preferences := some { spreadPreferences p.preferences with contrastMode := some mode } } := by
    intro p
    unfold loadContrastMode
    rw [h]
    simp only
    rw [if_pos ⟨hne, hm⟩]
  obtain ⟨_, hm2, hm3⟩ := loadReducedMotion_keeps storage
    (loadContrastMode storage (loadFontSize storage LoadPayload.empty))
  obtain ⟨q2, hq2, _, hq2c⟩ := hm3 _ (by rw [h1])
  have hpay : (loadPayload storage).preferences = some q2 := hq2
  have hcon : (loadPayload storage).contrastMode = some ("contrast-" ++ mode) := by
    show (loadReducedMotion storage _).contrastMode = _
    rw [hm2, h1]
  rw [load_of_preferences ⟨state, storage, d⟩ q2 hpay]
  simp only [accessibilityReducer, hpay, hcon]
  rw [hq2c]
  exact ⟨rfl, trivial⟩

theorem load_reducedMotion (state : State) (storage : Storage) (d : Document) (saved : String)
    (h : storage.reducedMotion = some saved) :
    (loadAccessibilityPreferences ⟨state, storage, d⟩).state.reducedMotion =
        decide (saved = "true") ∧
      (loadAccessibilityPreferences ⟨state, storage, d⟩).state.preferences.reducedMotion =
        MotionPref.bool (decide (saved = "true")) := by
  have h1 : ∀ p, loadReducedMotion storage p =
      { p with
        reducedMotion := some (decide (saved = "true"))
        preferences :=
          some { spreadPreferences p.preferences with
                 reducedMotion := MotionPref.bool (decide (saved = "true")) } } := by
    intro p
    unfold loadReducedMotion
    rw [h]
  have hpay : loadPayload storage = _ := h1 _
  rw [load_of_preferences ⟨state, storage, d⟩ _ (by rw [hpay])]
  simp only [accessibilityReducer, hpay]
  exact ⟨trivial, trivial⟩

end AccessibilityContext

namespace AccessibilityContext

/-! ## The claims on the preference state -/

/-- C11 (fails on the code): on the class string `contrast-contrast-highhigh` and the initial
state, one run of `applyAccessibilityClasses` leaves the classes `contrast-high` and
`font-normal`, a second run leaves `font-normal` alone. -/
theorem apply_twice_changes_classes :
    classesAfter (applyAccessibilityClasses initialState
        ⟨"contrast-contrast-highhigh", none, none⟩) = some ["contrast-high", "font-normal"] ∧
    classesAfter ((applyAccessibilityClasses initialState
        ⟨"contrast-contrast-highhigh", none, none⟩).bind
          (applyAccessibilityClasses initialState)) = some ["font-normal"] := by
  constructor <;> decide

/-- C12 (fails on the code): a class that is no marker but has a marker in its name is cut
to pieces (`md:font-normal` becomes `md:`), and a marker that the state does not ask for
can be left behind (`contrast-high` in the initial state). -/
theorem apply_mangles_other_classes :
    classTokens "md:font-normal sr-only" = ["md:font-normal", "sr-only"] ∧
    classesAfter (applyAccessibilityClasses initialState ⟨"md:font-normal sr-only", none, none⟩) =
      some ["md:", "sr-only", "font-normal"] ∧
    initialState.contrastMode = "contrast-normal" ∧
    classesAfter (applyAccessibilityClasses initialState
        ⟨"contrast-contrast-highhigh", none, none⟩) = some ["contrast-high", "font-normal"] := by
  refine ⟨?_, ?_, ?_, ?_⟩ <;> decide

/-- C13: a size set with `setFontSize`, a mode set with `setContrastMode` and the value set
by `toggleReducedMotion` are found again by `loadAccessibilityPreferences` on the initial
state with the storage these calls wrote. -/
theorem preference_round_trip (w : Store) (size mode : String) (now1 now2 : Nat)
    (d : Document) (hs : size ∈ ["normal", "large", "extra-large"])
    (hm : mode ∈ ["normal", "high"]) :
    (∃ w1, setFontSize w size now1 now2 = Except.ok w1 ∧
        (loadAccessibilityPreferences ⟨initialState, w1.storage, d⟩).state.preferences.fontSize =
          some size ∧
        (loadAccessibilityPreferences ⟨initialState, w1.storage, d⟩).state.fontSize =
          "font-" ++ size) ∧
      ((loadAccessibilityPreferences
            ⟨initialState, (setContrastMode w mode now1 now2).storage, d⟩).state.preferences.contrastMode
          = some mode ∧
        (loadAccessibilityPreferences
            ⟨initialState, (setContrastMode w mode now1 now2).storage, d⟩).state.contrastMode
          = "contrast-" ++ mode) ∧
      ((loadAccessibilityPreferences
            ⟨initialState, (toggleReducedMotion w now1 now2).storage, d⟩).state.reducedMotion
          = (toggleReducedMotion w now1 now2).state.reducedMotion ∧
        (loadAccessibilityPreferences
            ⟨initialState, (toggleReducedMotion w now1 now2).storage, d⟩).state.preferences.reducedMotion
          = MotionPref.bool (toggleReducedMotion w now1 now2).state.reducedMotion ∧
        (toggleReducedMotion w now1 now2).state.reducedMotion = !w.state.reducedMotion) := by
  refine ⟨?_, ?_, ?_⟩
  · obtain ⟨w1, hw1, hst⟩ := setFontSize_storage w size now1 now2 hs
    exact ⟨w1, hw1, load_fontSize initialState w1.storage d size hs (by rw [hst])⟩
  · exact load_contrastMode initialState _ d mode hm rfl
  · have h := load_reducedMotion initialState (toggleReducedMotion w now1 now2).storage d
      (if (!w.state.reducedMotion) = true then "true" else "false") rfl
    have hv : (toggleReducedMotion w now1 now2).state.reducedMotion = !w.state.reducedMotion :=
      rfl
    have hd : decide ((if (!w.state.reducedMotion) = true then "true" else "false") = "true") =
        !w.state.reducedMotion := by
      cases w.state.reducedMotion <;> decide
    rw [hd] at h
    rw [hv]
    exact ⟨h.1, h.2, rfl⟩

/-- Witness of C13: the size `large` and the mode `high` on a store that already holds other
entries. -/
theorem preference_round_trip_witness :
    (loadAccessibilityPreferences
        ⟨initialState,
          (setContrastMode ⟨initialState, ⟨some "normal", none, some "x"⟩, ⟨"app", none, none⟩⟩
            "high" 1 2).storage,
          ⟨"", none, none⟩⟩).state.contrastMode = "contrast-" ++ "high" :=
  (preference_round_trip ⟨initialState, ⟨some "normal", none, some "x"⟩, ⟨"app", none, none⟩⟩
    "large" "high" 1 2 ⟨"", none, none⟩ (by decide) (by decide)).2.1.2

/-- C14 (fails on the code): with the unrecognised entry `banana` under the reduced-motion
key, `loadAccessibilityPreferences` sets `reducedMotion` to false in a state where it was
true, and writes false into the preferences. -/
theorem load_applies_unrecognised_motion :
    (loadAccessibilityPreferences
        ⟨{ initialState with reducedMotion := true }, ⟨none, none, some "banana"⟩,
          ⟨"", none, none⟩⟩).state.reducedMotion = false ∧
    (loadAccessibilityPreferences
        ⟨{ initialState with reducedMotion := true }, ⟨none, none, some "banana"⟩,
          ⟨"", none, none⟩⟩).state.preferences.reducedMotion = MotionPref.bool false := by
  constructor <;> decide

/-- C15 (fails on the code): with a stored font size and nothing else, the load replaces
`state.preferences` by an object that has only `fontSize`: `contrastMode`, which was
`normal`, and `reducedMotion`, which was `null`, are absent afterwards. -/
theorem load_drops_other_preferences :
    (loadAccessibilityPreferences
        ⟨initialState, ⟨some "large", none, none⟩, ⟨"", none, none⟩⟩).state.preferences =
      { fontSize := some "large", contrastMode := none, reducedMotion := MotionPref.undefined } ∧
    initialState.preferences.contrastMode = some "normal" ∧
    initialState.preferences.reducedMotion = MotionPref.null := by
  refine ⟨?_, ?_, ?_⟩ <;> decide

/-- C16: after `resetPreferences` the font and contrast classes and the preferences are the
initial ones, `reducedMotion` and `screenReaderMode` are as before, and the three storage
entries are absent. -/
theorem resetPreferences_spec (w : Store) (now1 now2 : Nat) :
    (resetPreferences w now1 now2).state.fontSize = "font-normal" ∧
      (resetPreferences w now1 now2).state.contrastMode = "contrast-normal" ∧
      (resetPreferences w now1 now2).state.preferences =
        { fontSize := some "normal", contrastMode := some "normal",
          reducedMotion := MotionPref.null } ∧
      (resetPreferences w now1 now2).state.reducedMotion = w.state.reducedMotion ∧
      (resetPreferences w now1 now2).state.screenReaderMode = w.state.screenReaderMode ∧
      (resetPreferences w now1 now2).storage =
        { fontSize := none, contrastMode := none, reducedMotion := none } := by
  refine ⟨rfl, rfl, rfl, rfl, rfl, rfl⟩

/-- C17 (fails on the code): after `setContrastMode('high')` in a freshly started
application the confirmation, whose message contains `alto contraste`, is in the
announcements list of the accessibility state, which no live region renders; the
Announcement Channel is still empty, queue and active set, and letting its timers fire
activates nothing. -/
theorem contrast_confirmation_not_in_channel :
    (AppState.initial.setContrastMode "high" 1 1).access.state.announcements =
      [{ id := 1, message := "Modo de contraste cambiado a alto contraste",
         priority := "polite", timestamp := 1 }] ∧
    includes "Modo de contraste cambiado a alto contraste" "alto contraste" = true ∧
    (AppState.initial.setContrastMode "high" 1 1).channel.announcements = [] ∧
    (AppState.initial.setContrastMode "high" 1 1).channel.announcementQueue = [] ∧
    (AnnouncementContext.run (AppState.initial.setContrastMode "high" 1 1).channel
      (List.replicate 3 (AnnouncementContext.Event.fire 0 ⟨5000, 5000⟩))).announcements = [] ∧
    AnnouncementContext.activations (AppState.initial.setContrastMode "high" 1 1).channel
      (List.replicate 3 (AnnouncementContext.Event.fire 0 ⟨5000, 5000⟩)) = [] := by
  refine ⟨?_, ?_, ?_, ?_, ?_, ?_⟩ <;> decide

/-- C18: `setContrastMode(m)` sets the contrast class, the contrast preference and the
stored contrast entry, and leaves the font size, the reduced-motion fields, the
screen-reader flag and the keyboard flag as they were. -/
theorem setContrastMode_spec (w : Store) (m : String) (now1 now2 : Nat) :
    (setContrastMode w m now1 now2).state.contrastMode = "contrast-" ++ m ∧
      (setContrastMode w m now1 now2).state.preferences.contrastMode = some m ∧
      (setContrastMode w m now1 now2).storage.contrastMode = some m ∧
      (setContrastMode w m now1 now2).state.fontSize = w.state.fontSize ∧
      (setContrastMode w m now1 now2).state.preferences.fontSize =
        w.state.preferences.fontSize ∧
      (setContrastMode w m now1 now2).state.reducedMotion = w.state.reducedMotion ∧
      (setContrastMode w m now1 now2).state.preferences.reducedMotion =
        w.state.preferences.reducedMotion ∧
      (setContrastMode w m now1 now2).state.screenReaderMode = w.state.screenReaderMode ∧
      (setContrastMode w m now1 now2).state.keyboardNavigation =
        w.state.keyboardNavigation := by
  refine ⟨rfl, rfl, rfl, rfl, rfl, rfl, rfl, rfl, rfl⟩

/-- C19 (fails on the code): `TOGGLE_SCREEN_READER_MODE` clears a flag that is set, payload
or not; on mount with a detected screen reader the effect runs twice and the flag ends up
false. -/
theorem toggle_clears_screen_reader_flag :
    (accessibilityReducer { initialState with screenReaderMode := true }
        (.toggleScreenReaderMode true)).screenReaderMode = false ∧
    (commit ⟨initialState, none, none⟩ ⟨false, true⟩).state.screenReaderMode = true ∧
    (mount ⟨false, true⟩).state.screenReaderMode = false := by
  refine ⟨?_, ?_, ?_⟩ <;> decide

/-- C20 (fails on the code): after mounting with the media query not matching, nothing
stored and no user choice, a `change` event with value true leaves `reducedMotion` false:
the detection itself has written a boolean into `preferences.reducedMotion`, and the
listener installed by the second run of the effect follows the system only for `null`. -/
theorem system_motion_change_ignored_after_mount :
    (mount ⟨false, false⟩).state.preferences.reducedMotion = MotionPref.bool false ∧
    (mount ⟨false, false⟩).listener = some (MotionPref.bool false) ∧
    commit (mount ⟨false, false⟩) ⟨false, false⟩ = mount ⟨false, false⟩ ∧
    (mediaQueryChange (mount ⟨false, false⟩) true).state.reducedMotion = false := by
  refine ⟨?_, ?_, ?_, ?_⟩ <;> decide

end AccessibilityContext

namespace AnnouncementContext

/-! ## Facts about what the channel holds -/

theorem processQueue_held (s : Channel) (e : Env) : (processQueue s e).held = s.held := by
  cases hp : s.isProcessing with
  | true => rw [processQueue_busy s e hp]
  | false =>
    cases hq : s.announcementQueue with
    | nil => rw [processQueue_nil s e hq]
    | cons x rest =>
      rw [processQueue_idle s e x rest hp hq]
      simp [Channel.held, hq]
      omega

theorem announce_held (s : Channel) (m : String) (priority : JSValue) (options : Options)
    (e : Env) (hm : m ≠ "") : (announce s (.str m) priority options e).held = s.held + 1 := by
  rw [announce_str s m priority options e hm]
  split
  · simp [Channel.held]
    omega
  · rw [processQueue_held]
    simp [Channel.held]
    omega

end AnnouncementContext

namespace KeyboardNavigation

open AnnouncementContext (AnnounceCall navigationCall politeCall)
open AccessibilityContext (InputEvent keyboardDetection initialState)

/-! ## The claims on the keyboard dispatcher -/

/-- C21 (fails on the code): after a Tab key-down followed by a touch-start the field
`keyboardNavigation` of the runtime state is still true, while the ref of the keyboard hook,
whose listener is registered for `touchstart` too, is false. -/
theorem touch_start_keeps_keyboard_navigation :
    ([InputEvent.keyDown "Tab", InputEvent.touchStart].foldl keyboardDetection
        initialState).keyboardNavigation = true ∧
    keyboardModeAfter ⟨false, ""⟩ [InputEvent.keyDown "Tab", InputEvent.touchStart] =
      some false ∧
    ([InputEvent.keyDown "Tab", InputEvent.mouseDown].foldl keyboardDetection
        initialState).keyboardNavigation = false := by
  refine ⟨?_, ?_, ?_⟩ <;> decide

/-- C22 (fails on the code): with Alt+1 pressed on the route `/inicio` the listener of
`App` still sets the hash and announces, with category general; on the route `/contacto`
the same key press makes two announcements, one of the hook and one of `App`.  The listener
of the hook alone does nothing on `/inicio` and navigates and announces once on
`/contacto`. -/
theorem alt_shortcut_announced_twice :
    documentKeyDown 1 "/inicio" ⟨false, false, false, false, none, false, false⟩
        ⟨"1", true, false, false⟩ =
      [.preventDefault, .preventDefault, .setHash "inicio",
        .announce (politeCall "Navegando a Página de Inicio")] ∧
    (politeCall "Navegando a Página de Inicio").category = "general" ∧
    announcementsOf (documentKeyDown 1 "/contacto"
        ⟨false, false, false, false, none, false, false⟩ ⟨"1", true, false, false⟩) =
      [navigationCall "Página de Inicio", politeCall "Navegando a Página de Inicio"] ∧
    handleGlobalKeyDown true "/inicio" ⟨false, false, false, false, none, false, false⟩
        ⟨"1", true, false, false⟩ = [.preventDefault] ∧
    handleGlobalKeyDown true "/contacto" ⟨false, false, false, false, none, false, false⟩
        ⟨"1", true, false, false⟩ =
      [.preventDefault, .navigate "/inicio", .announce (navigationCall "Página de Inicio")] := by
  refine ⟨?_, ?_, ?_, ?_, ?_⟩ <;> decide

/-- C23 (as stated, fails): with an open dialog that has no close control and an expanded
control, Escape leaves the dialog alone and collapses the control. -/
theorem escape_passes_over_dialog_without_close_control :
    handleEscapeKey ⟨false, false, false, false, some false, true, false⟩ =
      [.setAttribute .expandedMenu "aria-expanded" "false", .focus .expandedMenu,
        .preventDefault, .announce (politeCall "Menú cerrado")] := by
  decide

/-- C23 (amended): when the open dialog has a close control, Escape clicks it, prevents the
default action and announces the closing, and does nothing to an expanded control; once no
dialog is open, Escape collapses the expanded control, focuses it and announces the closing
of the menu; an open dialog without close control is passed over. -/
theorem escape_priority (dom : Dom) :
    (dom.openModal = some true →
        handleEscapeKey dom =
          [.click .closeButton, .preventDefault, .announce (politeCall "Modal cerrado")]) ∧
      (dom.openModal ≠ some true → dom.expandedMenu = true →
        handleEscapeKey dom =
          [.setAttribute .expandedMenu "aria-expanded" "false", .focus .expandedMenu,
            .preventDefault, .announce (politeCall "Menú cerrado")]) := by
  constructor
  · intro h
    simp [handleEscapeKey, h]
  · intro h1 h2
    simp [handleEscapeKey, h1, h2]

/-- Witness of C23 (amended): a dialog with close control next to an expanded menu, then
the menu alone. -/
theorem escape_priority_witness :
    handleEscapeKey ⟨false, false, false, false, some true, true, false⟩ =
        [.click .closeButton, .preventDefault, .announce (politeCall "Modal cerrado")] ∧
      handleEscapeKey ⟨false, false, false, false, none, true, false⟩ =
        [.setAttribute .expandedMenu "aria-expanded" "false", .focus .expandedMenu,
          .preventDefault, .announce (politeCall "Menú cerrado")] :=
  ⟨(escape_priority ⟨false, false, false, false, some true, true, false⟩).1 rfl,
    (escape_priority ⟨false, false, false, false, none, true, false⟩).2 (by decide) rfl⟩

/-- C25: when the container is not found, the event target is outside the container, or
the focused element is not among the matched items, `handleArrowNavigation` does nothing:
no focus, no announcement, no `preventDefault`. -/
theorem arrow_ignores_foreign_events (opts : ArrowOptions) (ctx : ArrowContext)
    (event : KeyEvent)
    (h : ctx.containerFound = false ∨ ctx.targetInside = false ∨ ctx.currentIndex = -1) :
    handleArrowNavigation opts ctx event = [] := by
  unfold handleArrowNavigation
  rcases h with h | h | h
  · simp [h]
  · simp [h]
  · simp [h]

/-- Witness of C25: an ArrowDown whose target is outside the container. -/
theorem arrow_ignores_foreign_events_witness :
    handleArrowNavigation ⟨"vertical", true, true⟩ ⟨true, false, 4, 2⟩
      ⟨"ArrowDown", false, false, false⟩ = [] :=
  arrow_ignores_foreign_events _ _ _ (Or.inr (Or.inl rfl))

end KeyboardNavigation

namespace FocusManager

open AnnouncementContext (AnnounceCall navigationCall)
open KeyboardNavigation (Effect Target announcementsOf focusedBy)

/-! ## The claims on the focus coordinator -/

/-- C28: on a page with neither the heading nor the main-content element, the route-change
handler returns, focuses nothing and hands over exactly one announcement; its category is
navigation and the channel holds one announcement more. -/
theorem fallback_announces_once (focusElement : Option FocusFn) (page : RenderedPage)
    (ht : page.mainTitle = none) (hc : page.mainContent = false) :
    ∃ effects, handleRouteChange focusElement page = Except.ok effects ∧
      focusedBy effects = [] ∧
      announcementsOf effects = [navigationCall "Nueva página cargada"] ∧
      (navigationCall "Nueva página cargada").category = "navigation" ∧
      ∀ (s : AnnouncementContext.Channel) (e : AnnouncementContext.Env),
        ((navigationCall "Nueva página cargada").apply s e).held = s.held + 1 ∧
        (navigationCall "Nueva página cargada").apply s e =
          AnnouncementContext.announceNavigation s "Nueva página cargada" e := by
  refine ⟨[Effect.announce (navigationCall "Nueva página cargada")], ?_, rfl, rfl, by decide,
    ?_⟩
  · simp [handleRouteChange, ht, hc]
  · intro s e
    exact ⟨AnnouncementContext.announce_held s _ _ _ e (by decide), rfl⟩

/-- Witness of C28: the page with nothing to focus, with the `focusElement` of the
application. -/
theorem fallback_announces_once_witness :
    ∃ effects, handleRouteChange contextFocusElement ⟨none, false⟩ = Except.ok effects ∧
      focusedBy effects = [] ∧
      announcementsOf effects = [navigationCall "Nueva página cargada"] :=
  let ⟨effects, h1, h2, h3, _⟩ :=
    fallback_announces_once contextFocusElement ⟨none, false⟩ rfl rfl
  ⟨effects, h1, h2, h3⟩

/-- C29 (fails on the code): `focusElement` is not a property of the context value, so on a
page with the heading, and on a page with only the main-content element, the handler raises
a `TypeError` and hands over no announcement. -/
theorem route_change_raises_type_error :
    decide ("focusElement" ∈ contextValueKeys) = false ∧
    handedOver (handleRouteChange contextFocusElement ⟨some "Recursos", true⟩) = none ∧
    handedOver (handleRouteChange contextFocusElement ⟨none, true⟩) = none ∧
    handedOver (handleRouteChange contextFocusElement ⟨some "", true⟩) = none := by
  refine ⟨?_, ?_, ?_, ?_⟩ <;> decide

end FocusManager

namespace AccessibilityContext

/-- C30 (fails on the code): after `loadAccessibilityPreferences` on the initial state with
only a contrast entry stored, `fontSize` is `font-normal` and `preferences.fontSize` is
absent, so the class field and the preference do not agree. -/
theorem load_breaks_class_agreement :
    classesAgree initialState = true ∧
    (loadAccessibilityPreferences
        ⟨initialState, ⟨none, some "high", none⟩, ⟨"", none, none⟩⟩).state.fontSize =
      "font-normal" ∧
    (loadAccessibilityPreferences
        ⟨initialState, ⟨none, some "high", none⟩, ⟨"", none, none⟩⟩).state.preferences.fontSize =
      none ∧
    classesAgree (loadAccessibilityPreferences
        ⟨initialState, ⟨none, some "high", none⟩, ⟨"", none, none⟩⟩).state = false := by
  refine ⟨?_, ?_, ?_, ?_⟩ <;> decide

end AccessibilityContext

namespace KeyboardNavigation

open AnnouncementContext (AnnounceCall navigationCall politeCall)
open AccessibilityContext (startsWith)

/-! ## Index arithmetic and the search string -/

theorem succ_emod (n i : Int) (h0 : 0 ≤ i) (hi : i < n) :
    (i + 1) % n = if i = n - 1 then 0 else i + 1 := by
  split
  · next h => subst h; simp
  · next h => exact Int.emod_eq_of_lt (by omega) (by omega)

theorem pred_emod (n i : Int) (h0 : 0 ≤ i) (hi : i < n) :
    (i - 1) % n = if i = 0 then n - 1 else i - 1 := by
  split
  · next h =>
    subst h
    have h1 : (0 - 1 : Int) % n = (n - 1) % n := by
      rw [← Int.add_emod_self]
      congr 1
      omega
    rw [h1]
    exact Int.emod_eq_of_lt (by omega) (by omega)
  · next h => exact Int.emod_eq_of_lt (by omega) (by omega)

theorem forward_index (loop : Bool) (n i : Int) (h0 : 0 ≤ i) (hi : i < n) :
    (if (loop && i == n - 1) = true then 0 else min (i + 1) (n - 1)) =
      if loop = true then (i + 1) % n else min (i + 1) (n - 1) := by
  rw [succ_emod n i h0 hi]
  cases loop
  · simp
  · by_cases h : i = n - 1
    · simp [h]
    · simp only [Bool.true_and, beq_iff_eq, h, if_false, if_true]
      omega

theorem backward_index (loop : Bool) (n i : Int) (h0 : 0 ≤ i) (hi : i < n) :
    (if (loop && i == 0) = true then n - 1 else max (i - 1) 0) =
      if loop = true then (i - 1) % n else max (i - 1) 0 := by
  rw [pred_emod n i h0 hi]
  cases loop
  · simp
  · by_cases h : i = 0
    · simp [h]
    · simp only [Bool.true_and, beq_iff_eq, h, if_false, if_true]
      omega

theorem arrowNextIndex_valid (opts : ArrowOptions) (event : KeyEvent) (n i : Int)
    (hn : 1 ≤ n) (h0 : 0 ≤ i) (hi : i < n) :
    0 ≤ arrowNextIndex opts event n i ∧ arrowNextIndex opts event n i < n := by
  unfold arrowNextIndex arrowSwitch
  simp only []
  split_ifs <;> simp <;> omega

theorem join_snoc (l : List String) (x : String) :
    String.join (l ++ [x]) = String.join l ++ x := by
  simp [String.join, List.foldl_append]

theorem typeaheadRun_snoc (lower : String → String) (ctx : TypeaheadContext)
    (st : TypeaheadState) (strokes : List (String × Nat)) (last : String × Nat) :
    typeaheadRun lower ctx st (strokes ++ [last]) =
      (typeaheadKeyDown lower ctx (typeaheadRun lower ctx st strokes) last).1 := by
  simp [typeaheadRun, List.foldl_append]

theorem typeaheadKeyDown_accepted (lower : String → String) (ctx : TypeaheadContext)
    (st : TypeaheadState) (stroke : String × Nat) (hc : ctx.containerFound = true)
    (hi : ctx.targetInside = true) (hk : isTypeaheadKey stroke.1 = true) :
    (typeaheadKeyDown lower ctx st stroke).1 =
      { searchString := (timerElapsed st stroke.2).searchString ++ lower stroke.1
        timerDue := some (stroke.2 + 1000) } := by
  simp [typeaheadKeyDown, handleTypeahead, hc, hi, hk]

theorem typeahead_state : ∀ (strokes : List (String × Nat)) (lower : String → String)
    (ctx : TypeaheadContext) (last : String × Nat), ctx.containerFound = true →
    ctx.targetInside = true → (∀ k ∈ strokes ++ [last], isTypeaheadKey k.1 = true) →
    typeaheadRun lower ctx TypeaheadState.start (strokes ++ [last]) =
      { searchString := String.join ((chainedKeys (last :: strokes.reverse)).map lower)
        timerDue := some (last.2 + 1000) } := by
  intro strokes
  induction strokes using List.reverseRecOn with
  | nil =>
    intro lower ctx last hc hi hk
    have hl : isTypeaheadKey last.1 = true := hk last (by simp)
    rw [typeaheadRun_snoc, typeaheadKeyDown_accepted lower ctx _ last hc hi hl]
    obtain ⟨k, t⟩ := last
    simp [typeaheadRun, timerElapsed, TypeaheadState.start, chainedKeys, String.join]
  | append_singleton ss prev ih =>
    intro lower ctx last hc hi hk
    have hl : isTypeaheadKey last.1 = true := hk last (by simp)
    have hprev : ∀ k ∈ ss ++ [prev], isTypeaheadKey k.1 = true := by
      intro k hmem
      exact hk k (List.mem_append_left _ hmem)
    rw [typeaheadRun_snoc, typeaheadKeyDown_accepted lower ctx _ last hc hi hl,
      ih lower ctx prev hc hi hprev]
    obtain ⟨k, t⟩ := last
    obtain ⟨k0, t0⟩ := prev
    simp only [List.reverse_append, List.reverse_cons, List.reverse_nil, List.nil_append,
      List.singleton_append]
    by_cases hgap : t < t0 + 1000
    · have hnot : ¬ (t0 + 1000 ≤ t) := by omega
      simp only [timerElapsed, hnot, if_false]
      conv_rhs => rw [chainedKeys]
      simp only [hgap, if_true, List.map_append, List.map_cons, List.map_nil, join_snoc]
    · have hle : t0 + 1000 ≤ t := by omega
      simp only [timerElapsed, hle, if_true]
      conv_rhs => rw [chainedKeys]
      simp [hgap, String.join]

theorem findMatching_some (lower : String → String) (search : String) :
    ∀ (items : List TypeaheadItem) (k j : Nat) (item : TypeaheadItem),
      findMatching lower search items k = some (j, item) →
      k ≤ j ∧ items[j - k]? = some item ∧
        startsWith (lower (itemText item)).data search.data = true ∧
        ∀ i, i < j - k → ∀ it, items[i]? = some it →
          startsWith (lower (itemText it)).data search.data = false := by
  intro items
  induction items with
  | nil => intro k j item h; simp [findMatching] at h
  | cons x rest ih =>
    intro k j item h
    unfold findMatching at h
    by_cases hx : startsWith (lower (itemText x)).data search.data = true
    · rw [if_pos hx] at h
      simp only [Option.some.injEq, Prod.mk.injEq] at h
      obtain ⟨h1, h2⟩ := h
      subst h1
      subst h2
      refine ⟨Nat.le_refl _, by simp, hx, ?_⟩
      intro i hi
      omega
    · rw [if_neg hx] at h
      obtain ⟨hle, hget, hstart, hbefore⟩ := ih (k + 1) j item h
      have hjk : j - k = (j - (k + 1)) + 1 := by omega
      refine ⟨by omega, ?_, hstart, ?_⟩
      · rw [hjk]
        simpa using hget
      · intro i hi it hit
        cases i with
        | zero =>
          simp at hit
          subst hit
          simpa using hx
        | succ i =>
          simp at hit
          exact hbefore i (by omega) it hit

theorem findMatching_none (lower : String → String) (search : String) :
    ∀ (items : List TypeaheadItem) (k : Nat), findMatching lower search items k = none →
      ∀ it ∈ items, startsWith (lower (itemText it)).data search.data = false := by
  intro items
  induction items with
  | nil => intro k _ it hit; simp at hit
  | cons x rest ih =>
    intro k h it hit
    unfold findMatching at h
    by_cases hx : startsWith (lower (itemText x)).data search.data = true
    · rw [if_pos hx] at h
      exact absurd h (by simp)
    · rw [if_neg hx] at h
      rcases List.mem_cons.mp hit with heq | hmem
      · subst heq
        simpa using hx
      · exact ih (k + 1) h it hmem

end KeyboardNavigation

namespace KeyboardNavigation

open AnnouncementContext (AnnounceCall navigationCall politeCall)
open AccessibilityContext (startsWith)

/-! ## The claims on arrow navigation and type-ahead -/

/-- C24: for `n` items and a current index `i` in range, ArrowDown (vertical) and ArrowRight
(horizontal) give `(i+1) mod n` with `loop` and `min(i+1, n-1)` without; ArrowUp and
ArrowLeft give `(i-1) mod n` with `loop` and `max(i-1, 0)` without; the next index is in
range for every key; on the last of four items ArrowDown focuses the first item with `loop`
and focuses nothing without. -/
theorem arrow_next_index (opts : ArrowOptions) (event : KeyEvent) (n i : Int) (hn : 1 ≤ n)
    (h0 : 0 ≤ i) (hi : i < n) :
    (((event.key = "ArrowDown" ∧ (opts.orientation = "vertical" ∨ opts.orientation = "both")) ∨
        (event.key = "ArrowRight" ∧
          (opts.orientation = "horizontal" ∨ opts.orientation = "both"))) →
        arrowNextIndex opts event n i =
          if opts.loop = true then (i + 1) % n else min (i + 1) (n - 1)) ∧
      (((event.key = "ArrowUp" ∧ (opts.orientation = "vertical" ∨ opts.orientation = "both")) ∨
        (event.key = "ArrowLeft" ∧
          (opts.orientation = "horizontal" ∨ opts.orientation = "both"))) →
        arrowNextIndex opts event n i =
          if opts.loop = true then (i - 1) % n else max (i - 1) 0) ∧
      (0 ≤ arrowNextIndex opts event n i ∧ arrowNextIndex opts event n i < n) ∧
      handleArrowNavigation ⟨"vertical", true, true⟩ ⟨true, true, 4, 3⟩
          ⟨"ArrowDown", false, false, false⟩ =
        [.preventDefault, .focus (.item 0), .announce (politeCall "Elemento 1 de 4")] ∧
      handleArrowNavigation ⟨"vertical", false, true⟩ ⟨true, true, 4, 3⟩
          ⟨"ArrowDown", false, false, false⟩ = [.preventDefault] := by
  refine ⟨?_, ?_, arrowNextIndex_valid opts event n i hn h0 hi, by decide, by decide⟩
  · intro h
    rw [← forward_index opts.loop n i h0 hi]
    rcases h with ⟨hk, ho⟩ | ⟨hk, ho⟩
    · have hv : (opts.orientation == "vertical" || opts.orientation == "both") = true := by
        rcases ho with h1 | h1 <;> simp [h1]
      simp [arrowNextIndex, arrowSwitch, hk, hv]
    · have hv : (opts.orientation == "horizontal" || opts.orientation == "both") = true := by
        rcases ho with h1 | h1 <;> simp [h1]
      simp [arrowNextIndex, arrowSwitch, hk, hv]
  · intro h
    rw [← backward_index opts.loop n i h0 hi]
    rcases h with ⟨hk, ho⟩ | ⟨hk, ho⟩
    · have hv : (opts.orientation == "vertical" || opts.orientation == "both") = true := by
        rcases ho with h1 | h1 <;> simp [h1]
      simp [arrowNextIndex, arrowSwitch, hk, hv]
    · have hv : (opts.orientation == "horizontal" || opts.orientation == "both") = true := by
        rcases ho with h1 | h1 <;> simp [h1]
      simp [arrowNextIndex, arrowSwitch, hk, hv]

/-- Witness of C24: ArrowUp on the first of five items, with `loop`. -/
theorem arrow_next_index_witness :
    arrowNextIndex ⟨"vertical", true, true⟩ ⟨"ArrowUp", false, false, false⟩ 5 0 =
      if true = true then (0 - 1) % 5 else max (0 - 1) 0 :=
  (arrow_next_index ⟨"vertical", true, true⟩ ⟨"ArrowUp", false, false, false⟩ 5 0
    (by decide) (by decide) (by decide)).2.1 (Or.inl ⟨rfl, Or.inl rfl⟩)

/-- C26 (as stated, fails): the key `-` typed 600 ms after `a` and 600 ms before `b` is
skipped by the handler and does not restart the timer, so `b` is searched alone although
each gap is less than a second. -/
theorem typeahead_skips_other_keys :
    isTypeaheadKey "-" = false ∧
    (typeaheadRun asciiLower ⟨true, true, []⟩ TypeaheadState.start
        [("a", 0), ("-", 600), ("b", 1200)]).searchString = "b" ∧
    (typeaheadRun asciiLower ⟨true, true, []⟩ TypeaheadState.start
        [("a", 0), ("-", 600)]).searchString = "a" := by
  refine ⟨?_, ?_, ?_⟩ <;> decide

/-- C26 (amended): for every sequence of keystrokes that are single letters or digits, typed
inside the container, the search string at the latest keystroke is the concatenation of the
lower-cased keys of that keystroke and exactly the preceding keystrokes chained to it by
gaps of less than 1000 ms, and the timer is set to 1000 ms after it. -/
theorem typeahead_search_string (lower : String → String) (ctx : TypeaheadContext)
    (strokes : List (String × Nat)) (last : String × Nat) (hc : ctx.containerFound = true)
    (hi : ctx.targetInside = true)
    (hk : ∀ k ∈ strokes ++ [last], isTypeaheadKey k.1 = true) :
    (typeaheadRun lower ctx TypeaheadState.start (strokes ++ [last])).searchString =
        String.join ((chainedKeys (last :: strokes.reverse)).map lower) ∧
      (typeaheadRun lower ctx TypeaheadState.start (strokes ++ [last])).timerDue =
        some (last.2 + 1000) := by
  rw [typeahead_state strokes lower ctx last hc hi hk]
  exact ⟨rfl, rfl⟩

/-- Witness of C26 (amended): `c`, `a`, and more than a second later `b`. -/
theorem typeahead_search_string_witness :
    (typeaheadRun asciiLower ⟨true, true, []⟩ TypeaheadState.start
        ([("C", 0), ("a", 300)] ++ [("b", 1500)])).searchString =
      String.join ((chainedKeys (("b", 1500) :: [("C", 0), ("a", 300)].reverse)).map
        asciiLower) :=
  (typeahead_search_string asciiLower ⟨true, true, []⟩ [("C", 0), ("a", 300)] ("b", 1500)
    rfl rfl (by decide)).1

/-- C27 (as stated, fails): the key `b` does not match an item whose text is `Abrir` and
whose `aria-label` is `Buscar`; the label counts only for an item without text. -/
theorem typeahead_label_only_without_text :
    (handleTypeahead asciiLower ⟨true, true, [⟨"Abrir", some "Buscar"⟩]⟩
        TypeaheadState.start "b" 0).2 = [.preventDefault] ∧
    (handleTypeahead asciiLower ⟨true, true, [⟨"Abrir", some "Buscar"⟩, ⟨"", some "Borrar"⟩]⟩
        TypeaheadState.start "b" 0).2 =
      [.preventDefault, .focus (.item 1), .announce (politeCall "Encontrado: Borrar")] := by
  constructor <;> decide

/-- C27 (amended): on a letter or digit typed inside the container, the handler focuses the
first item whose lower-cased text (the `aria-label` standing in for an empty text) starts
with the buffer, and announces the text of that item; when there is none it focuses nothing
and announces nothing. -/
theorem typeahead_match (lower : String → String) (ctx : TypeaheadContext)
    (st : TypeaheadState) (key : String) (now : Nat) (hc : ctx.containerFound = true)
    (hi : ctx.targetInside = true) (hk : isTypeaheadKey key = true) :
    (∃ j item, ctx.items[j]? = some item ∧
        startsWith (lower (itemText item)).data (st.searchString ++ lower key).data = true ∧
        (∀ i, i < j → ∀ it, ctx.items[i]? = some it →
          startsWith (lower (itemText it)).data (st.searchString ++ lower key).data = false) ∧
        (handleTypeahead lower ctx st key now).2 =
          [.preventDefault, .focus (.item j),
            .announce (politeCall ("Encontrado: " ++ itemLabel item))]) ∨
      ((∀ it ∈ ctx.items,
          startsWith (lower (itemText it)).data (st.searchString ++ lower key).data = false) ∧
        (handleTypeahead lower ctx st key now).2 = [.preventDefault]) := by
  cases hf : findMatching lower (st.searchString ++ lower key) ctx.items 0 with
  | none =>
    right
    refine ⟨findMatching_none lower _ ctx.items 0 hf, ?_⟩
    simp [handleTypeahead, hc, hi, hk, hf]
  | some r =>
    obtain ⟨j, item⟩ := r
    left
    obtain ⟨_, hget, hstart, hbefore⟩ := findMatching_some lower _ ctx.items 0 j item hf
    refine ⟨j, item, by simpa using hget, hstart, ?_, ?_⟩
    · intro i hlt it hit
      exact hbefore i (by simpa using hlt) it hit
    · simp [handleTypeahead, hc, hi, hk, hf]

/-- Witness of C27 (amended): the second item is the first whose text starts with `b`. -/
theorem typeahead_match_witness :
    (∃ j item, [(⟨"Abrir", none⟩ : TypeaheadItem), ⟨"Buscar", none⟩][j]? = some item ∧
        startsWith (asciiLower (itemText item)).data ("" ++ asciiLower "b").data = true ∧
        (∀ i, i < j → ∀ it, [(⟨"Abrir", none⟩ : TypeaheadItem), ⟨"Buscar", none⟩][i]? = some it →
          startsWith (asciiLower (itemText it)).data ("" ++ asciiLower "b").data = false) ∧
        (handleTypeahead asciiLower ⟨true, true, [⟨"Abrir", none⟩, ⟨"Buscar", none⟩]⟩
            TypeaheadState.start "b" 0).2 =
          [.preventDefault, .focus (.item j),
            .announce (politeCall ("Encontrado: " ++ itemLabel item))]) ∨
      ((∀ it ∈ [(⟨"Abrir", none⟩ : TypeaheadItem), ⟨"Buscar", none⟩],
          startsWith (asciiLower (itemText it)).data ("" ++ asciiLower "b").data = false) ∧
        (handleTypeahead asciiLower ⟨true, true, [⟨"Abrir", none⟩, ⟨"Buscar", none⟩]⟩
            TypeaheadState.start "b" 0).2 = [.preventDefault]) :=
  typeahead_match asciiLower ⟨true, true, [⟨"Abrir", none⟩, ⟨"Buscar", none⟩]⟩
    TypeaheadState.start "b" 0 rfl rfl (by decide)

end KeyboardNavigation
